import Mathlib

/-!
Verification development for the MeteoRuta weather-route-assistant
weather-orchestrator subsystem.

The definitions below are a shallow embedding of the JavaScript source:

* `services/weather-orchestrator/src/index.js` — acquisition controller,
  fusion engine (`mergeWeatherData`, `calculateConfidence`,
  `detectWeatherInconsistencies`), risk classifier (`identifyRisks`)
  and the HTTP route handlers;
* `src/cache/rateLimiter.js` — `RateLimiter.checkRateLimit`;
* `src/cache/redisClient.js` — the best-effort Redis wrapper
  (`get` / `setex` / `incr` / `expire`);
* `src/providers/meteoblue.js` and `src/providers/aemet.js` — the
  response parsers relevant to required-versus-optional field handling.

JavaScript numbers are embedded as rationals (`ℚ`); at the magnitudes
used by every threshold and confidence constant in the source the
float comparisons are exact, so `ℚ` is faithful.  `null`/`undefined`
weather fields are embedded as `Option ℚ`.  Exceptions are embedded as
`Except String`.  Mutation is embedded as explicit state passing.
-/

/-- The four providers wired into the orchestrator
(`providers` object, `index.js` lines 19-24). -/
inductive Provider where
  | meteoblue
  | aemet
  | windy
  | meteored
deriving DecidableEq, Repr

/-- A provider's normalized weather record as produced by every adapter's
`parseResponse` (temperature .. visibility, provider, confidence).
`precipitation` is never null in any adapter (all four coalesce it to 0),
so it is a plain `ℚ`.  The `timestamp` string of the JS record plays no
role in any claim and is omitted; `windDirection` may be a compass string
in JS but no claim inspects it, so it is kept as an optional number. -/
structure WeatherData where
  temperature : Option ℚ
  windSpeed : Option ℚ
  windDirection : Option ℚ
  precipitation : ℚ
  humidity : Option ℚ
  pressure : Option ℚ
  cloudCover : Option ℚ
  visibility : Option ℚ
  provider : Provider
  confidence : ℚ
deriving DecidableEq, Repr

/-- One element of the `weatherSources` array built by
`getWeatherForPoint`: `{ provider, data, cached }`. -/
structure SourceEntry where
  provider : Provider
  data : WeatherData
  cached : Bool
deriving DecidableEq, Repr

/-- A discrepancy warning pushed by `detectWeatherInconsistencies`.
The JS code pushes a formatted string naming the magnitude; the
embedding keeps the kind and the magnitude. -/
inductive Warning where
  | tempVariation (range : ℚ)
  | windVariation (range : ℚ)
deriving DecidableEq, Repr

/-- The merged record built by `mergeWeatherData` (`index.js` 266-279,
after `Object.assign`). -/
structure FusedRecord where
  temperature : Option ℚ
  windSpeed : Option ℚ
  windDirection : Option ℚ
  precipitation : ℚ
  humidity : Option ℚ
  pressure : Option ℚ
  cloudCover : Option ℚ
  visibility : Option ℚ
  sources : List Provider
  primary : Provider
  confidence : ℚ
  warnings : List Warning
deriving DecidableEq, Repr

/-- Fixed per-provider priority weights
(`const priority = { meteoblue: 4, aemet: 3, windy: 2, meteored: 1 }`,
`index.js` line 260). -/
def priority : Provider → Nat
  | .meteoblue => 4
  | .aemet => 3
  | .windy => 2
  | .meteored => 1

/-- Stable insertion of one entry into a list already sorted by
descending priority; the earlier element of the original array stays
first on ties, matching the stability of `Array.prototype.sort`. -/
def insertByPriority (x : SourceEntry) : List SourceEntry → List SourceEntry
  | [] => [x]
  | y :: ys =>
      if priority x.provider < priority y.provider then
        y :: insertByPriority x ys
      else
        x :: y :: ys

/-- `sources.sort((a, b) => priority[b.provider] - priority[a.provider])`
(`index.js` 262-264): a stable sort by descending priority weight. -/
def sortByPriority : List SourceEntry → List SourceEntry
  | [] => []
  | x :: xs => insertByPriority x (sortByPriority xs)

/-- `calculateConfidence` (`index.js` 293-298). -/
def calculateConfidence (sources : List SourceEntry) : ℚ :=
  if sources.length = 1 then 0.75
  else if sources.length = 2 then 0.85
  else if sources.length ≥ 3 then 0.95
  else 0.5

/-- `Math.max(...xs)` over a non-empty list (`0` for the empty list,
which the source never reaches because of its length guards). -/
def listMax : List ℚ → ℚ
  | [] => 0
  | [x] => x
  | x :: y :: ys => max x (listMax (y :: ys))

/-- `Math.min(...xs)` over a non-empty list. -/
def listMin : List ℚ → ℚ
  | [] => 0
  | [x] => x
  | x :: y :: ys => min x (listMin (y :: ys))

/-- `detectWeatherInconsistencies` (`index.js` 300-321), returning the
warnings it pushes onto `merged.warnings` (temperature check first,
wind check second, as in the source). -/
def detectWeatherInconsistencies (sources : List SourceEntry) : List Warning :=
  if sources.length < 2 then []
  else
    let temperatures := (sources.map (fun s => s.data.temperature)).filterMap id
    let windSpeeds := (sources.map (fun s => s.data.windSpeed)).filterMap id
    let tempWarnings :=
      if 2 ≤ temperatures.length ∧ listMax temperatures - listMin temperatures > 5 then
        [Warning.tempVariation (listMax temperatures - listMin temperatures)]
      else []
    let windWarnings :=
      if 2 ≤ windSpeeds.length ∧ listMax windSpeeds - listMin windSpeeds > 15 then
        [Warning.windVariation (listMax windSpeeds - listMin windSpeeds)]
      else []
    tempWarnings ++ windWarnings

/-- `mergeWeatherData` (`index.js` 258-291).  The in-place
`sources.sort` means the later `sources.map(s => s.provider)` and the
`detectWeatherInconsistencies` call see the sorted array.  `Object.assign
(merged, primaryData)` copies every enumerable key of the primary
record, so it overwrites the previously computed
`confidence: calculateConfidence(sources)` with the primary provider's
own `confidence` field; the embedding records that net effect.  On an
empty array `sortedSources[0].provider` would throw in JS, embedded as
`none` (the caller guards against this). -/
def mergeWeatherData (sources : List SourceEntry) : Option FusedRecord :=
  let sortedSources := sortByPriority sources
  match sortedSources with
  | [] => none
  | primaryEntry :: _ =>
      let primaryData := primaryEntry.data
      some {
        temperature := primaryData.temperature
        windSpeed := primaryData.windSpeed
        windDirection := primaryData.windDirection
        precipitation := primaryData.precipitation
        humidity := primaryData.humidity
        pressure := primaryData.pressure
        cloudCover := primaryData.cloudCover
        visibility := primaryData.visibility
        sources := sortedSources.map (fun s => s.provider)
        primary := primaryEntry.provider
        -- Object.assign overwrote calculateConfidence(sources) here:
        confidence := primaryData.confidence
        warnings :=
          if sortedSources.length > 1 then
            detectWeatherInconsistencies sortedSources
          else []
      }

/-- One waypoint of a route request (`{lat, lon,
estimatedTimeFromStart}`; `estimatedTimeFromStart || 0` makes the
missing case behave as `0`, so a plain `ℚ` with default `0` is used). -/
structure Waypoint where
  lat : ℚ
  lon : ℚ
  estimatedTimeFromStart : ℚ := 0
deriving DecidableEq, Repr

/-- One element of the `weatherData` array of the route-level response:
`{ waypoint, weather, error?, timestamp }` (`getWeatherForWaypoints`,
`index.js` 164-195).  `timestamp` is the estimated epoch time in
milliseconds. -/
structure RouteEntry where
  waypoint : Waypoint
  weather : Option FusedRecord
  error : Option String
  timestamp : ℚ
deriving DecidableEq, Repr

/-- Hazard types of `identifyRisks`. -/
inductive RiskType where
  | wind
  | precipitation
  | temperature
  | visibility
deriving DecidableEq, Repr

/-- Alert severities of `identifyRisks`. -/
inductive RiskLevel where
  | high
  | medium
deriving DecidableEq, Repr

/-- One alert pushed by `identifyRisks`: kind, level, the magnitude
named in the message, `Punto index+1`, the waypoint coordinates and
the entry timestamp. -/
structure RiskAlert where
  kind : RiskType
  level : RiskLevel
  value : ℚ
  pointIndex : Nat
  lat : ℚ
  lon : ℚ
  timestamp : ℚ
deriving DecidableEq, Repr

/-- JavaScript `x > c` where `x` may be `null`: `null` coerces to `0`,
but every threshold compared against in `identifyRisks` is positive,
and `null > c` is false for the thresholds used; the adapters moreover
never produce a negative-threshold comparison.  Concretely `null > 25`,
`null > 5`, `null > 35` are all false. -/
def jsGtOpt (x : Option ℚ) (c : ℚ) : Bool :=
  match x with
  | some v => decide (v > c)
  | none => decide ((0 : ℚ) > c)

/-- JavaScript `x < c` with a possibly `null` left operand
(`null` coerces to `0`). -/
def jsLtOpt (x : Option ℚ) (c : ℚ) : Bool :=
  match x with
  | some v => decide (v < c)
  | none => decide ((0 : ℚ) < c)

/-- The alerts pushed for a single entry of `weatherResults`
(`identifyRisks` loop body, `index.js` 360-413): wind, then
precipitation, then temperature, then visibility.  The visibility
check is guarded by JS truthiness (`weather.visibility && ...`), so a
`null` or `0` visibility is never evaluated. -/
def checksForEntry (index : Nat) (entry : RouteEntry) : List RiskAlert :=
  match entry.weather with
  | none => []
  | some weather =>
      let wp := entry.waypoint
      let windAlerts :=
        if jsGtOpt weather.windSpeed 25 then
          [{ kind := RiskType.wind,
             level := if jsGtOpt weather.windSpeed 40 then RiskLevel.high else RiskLevel.medium,
             value := weather.windSpeed.getD 0,
             pointIndex := index + 1, lat := wp.lat, lon := wp.lon,
             timestamp := entry.timestamp }]
        else []
      let precipAlerts :=
        if weather.precipitation > 5 then
          [{ kind := RiskType.precipitation,
             level := if weather.precipitation > 15 then RiskLevel.high else RiskLevel.medium,
             value := weather.precipitation,
             pointIndex := index + 1, lat := wp.lat, lon := wp.lon,
             timestamp := entry.timestamp }]
        else []
      let tempAlerts :=
        if jsLtOpt weather.temperature 0 || jsGtOpt weather.temperature 35 then
          [{ kind := RiskType.temperature,
             level := RiskLevel.medium,
             value := weather.temperature.getD 0,
             pointIndex := index + 1, lat := wp.lat, lon := wp.lon,
             timestamp := entry.timestamp }]
        else []
      let visAlerts :=
        match weather.visibility with
        | none => []
        | some v =>
            if v ≠ 0 ∧ v < 1000 then
              [{ kind := RiskType.visibility,
                 level := if v < 500 then RiskLevel.high else RiskLevel.medium,
                 value := v,
                 pointIndex := index + 1, lat := wp.lat, lon := wp.lon,
                 timestamp := entry.timestamp }]
            else []
      windAlerts ++ precipAlerts ++ tempAlerts ++ visAlerts

/-- The indexed `forEach` of `identifyRisks`. -/
def identifyRisksAux : Nat → List RouteEntry → List RiskAlert
  | _, [] => []
  | i, r :: rs => checksForEntry i r ++ identifyRisksAux (i + 1) rs

/-- `identifyRisks` (`index.js` 351-416): scan the route results in
waypoint order and collect every alert. -/
def identifyRisks (weatherResults : List RouteEntry) : List RiskAlert :=
  identifyRisksAux 0 weatherResults

/-- Per-provider rate-limit configuration (`this.limits`,
`rateLimiter.js` lines 7-12; windows are in seconds). -/
structure RateLimitConfig where
  max : Nat
  window : ℚ
deriving DecidableEq, Repr

/-- The configured hourly maxima: meteoblue 200, aemet 500, windy 400,
meteored 300, each over a 3600-second window. -/
def limits : Provider → RateLimitConfig
  | .meteoblue => { max := 200, window := 3600 }
  | .aemet => { max := 500, window := 3600 }
  | .windy => { max := 400, window := 3600 }
  | .meteored => { max := 300, window := 3600 }

/-- The Redis value and expiry deadline behind one rate-limit key.
`expiry = none` models a key without TTL (Redis persists it). -/
structure LimiterEntry where
  count : Nat
  expiry : Option ℚ
deriving DecidableEq, Repr

/-- Redis expiry semantics: a key whose deadline has passed behaves as
absent. -/
def liveEntry (t : ℚ) : Option LimiterEntry → Option LimiterEntry
  | none => none
  | some e =>
      match e.expiry with
      | some d => if d ≤ t then none else some e
      | none => some e

/-- `RateLimiter.checkRateLimit` (`rateLimiter.js` 15-55) for one key,
as a state transformer at time `t`: `INCR` the counter (an absent or
expired key restarts at 1); if the incremented value is exactly 1, set
the key's expiry to `t + window`; return denied iff the incremented
value exceeds `cfg.max`.  The increment is never rolled back.  When the
store is unavailable (`avail = false`) `INCR` falls back to `1` and
`EXPIRE` is a no-op, so the state is unchanged and the call is allowed
(for any `cfg.max ≥ 1`); any store error is caught and allowed
likewise. -/
def checkRateLimit (avail : Bool) (cfg : RateLimitConfig) (t : ℚ)
    (s : Option LimiterEntry) : Bool × Option LimiterEntry :=
  if avail then
    match liveEntry t s with
    | none => (decide (1 ≤ cfg.max), some { count := 1, expiry := some (t + cfg.window) })
    | some e => (decide (e.count + 1 ≤ cfg.max), some { count := e.count + 1, expiry := e.expiry })
  else
    (decide (1 ≤ cfg.max), s)

/-- A sequence of `checkRateLimit` calls against one key, at the given
times, threading the key's state and collecting the allowed/denied
answers in order. -/
def runChecks (avail : Bool) (cfg : RateLimitConfig) :
    List ℚ → Option LimiterEntry → List Bool × Option LimiterEntry
  | [], s => ([], s)
  | t :: ts, s =>
      let r := checkRateLimit avail cfg t s
      let rest := runChecks avail cfg ts r.2
      (r.1 :: rest.1, rest.2)

/-- The weather cache key
`weather:{provider}:{lat.toFixed(3)}:{lon.toFixed(3)}:{floor(t/3600000)}`
(`index.js` line 210), embedded structurally: the provider, both
coordinates rounded to thousandths of a degree, and the hour bucket. -/
structure CacheKey where
  provider : Provider
  lat3 : ℤ
  lon3 : ℤ
  hourBucket : ℤ
deriving DecidableEq, Repr

/-- `x.toFixed(3)` embedded as the integer number of thousandths
(rounded to the nearest thousandth). -/
def fixed3 (q : ℚ) : ℤ := round (q * 1000)

/-- `Math.floor(timestamp.getTime() / 3600000)`. -/
def hourBucket (tms : ℚ) : ℤ := ⌊tms / 3600000⌋

/-- The cache key used by both the lookup and the write in
`getWeatherForPoint` (the source computes the key string once and uses
it for `RedisClient.get` and `RedisClient.setex` alike). -/
def cacheKey (p : Provider) (lat lon tms : ℚ) : CacheKey :=
  { provider := p, lat3 := fixed3 lat, lon3 := fixed3 lon, hourBucket := hourBucket tms }

/-- The shared Redis store as seen by the weather cache: an
availability flag and, per key, the stored record with its expiry
deadline (in epoch milliseconds). -/
structure RedisStore where
  avail : Bool
  cache : CacheKey → Option (WeatherData × ℚ)

/-- `RedisClient.get` (`redisClient.js` 46-58) restricted to weather
cache keys: `null` when the store is unavailable (or on any store
error), otherwise the live entry; a past-deadline entry behaves as
absent. -/
def cacheGet (s : RedisStore) (k : CacheKey) (t : ℚ) : Option WeatherData :=
  if s.avail then
    match s.cache k with
    | some dv => if t < dv.2 then some dv.1 else none
    | none => none
  else none

/-- `RedisClient.setex` (`redisClient.js` 60-81): a no-op when the
store is unavailable (or on any store error), otherwise it stores the
value with deadline `t + ttl` seconds ahead. -/
def cacheSetex (s : RedisStore) (k : CacheKey) (ttl : ℚ) (d : WeatherData) (t : ℚ) : RedisStore :=
  if s.avail then
    { s with cache := fun k2 => if k2 = k then some (d, t + ttl * 1000) else s.cache k2 }
  else s

/-- The outcome of one upstream adapter invocation for a given
provider at a given point and time: the parsed record, or a thrown
error (any of the adapter failure modes). -/
inductive AdapterResult where
  | success (d : WeatherData)
  | failure (msg : String)

/-- The environment of one point acquisition: per provider, whether
`provider.isAvailable()` holds (an API key is configured) and what one
upstream call would produce. -/
structure AcqEnv where
  available : Provider → Bool
  adapter : Provider → AdapterResult

/-- The persistent state threaded through acquisitions: the shared
store, the per-provider rate-limit keys, and a log of every upstream
adapter invocation actually issued (used to express call budgets). -/
structure AcqState where
  store : RedisStore
  limiter : Provider → Option LimiterEntry
  calls : List (Provider × CacheKey)

/-- The fixed provider priority order
(`const providerPriority = ['meteoblue', 'aemet', 'windy', 'meteored']`,
`index.js` line 199). -/
def providerPriority : List Provider :=
  [.meteoblue, .aemet, .windy, .meteored]

/-- One iteration of the provider loop of `getWeatherForPoint`
(`index.js` 201-249) for provider `p` at point `(lat, lon)`, target
time `tms` and wall-clock `now` (both epoch ms): skip unavailable
providers; on a cache hit record the cached entry and continue; else
consult the rate limiter (denial skips the provider); else invoke the
adapter (logging the upstream call), cache a successful record for
1800 seconds, and on failure merely continue. -/
def acquireStep (env : AcqEnv) (lat lon tms now : ℚ)
    (acc : AcqState × List SourceEntry) (p : Provider) : AcqState × List SourceEntry :=
  let st := acc.1
  let sources := acc.2
  if env.available p then
    let k := cacheKey p lat lon tms
    match cacheGet st.store k now with
    | some d => (st, sources ++ [{ provider := p, data := d, cached := true }])
    | none =>
        let rl := checkRateLimit st.store.avail (limits p) (now / 1000) (st.limiter p)
        let st2 : AcqState := { st with limiter := fun q => if q = p then rl.2 else st.limiter q }
        if rl.1 then
          match env.adapter p with
          | .success d =>
              ({ st2 with
                   store := cacheSetex st2.store k 1800 d now,
                   calls := st2.calls ++ [(p, k)] },
               sources ++ [{ provider := p, data := d, cached := false }])
          | .failure _ => ({ st2 with calls := st2.calls ++ [(p, k)] }, sources)
        else (st2, sources)
  else acc

/-- The provider loop of `getWeatherForPoint`, over an explicit list
of providers. -/
def acquireLoop (env : AcqEnv) (lat lon tms now : ℚ) :
    List Provider → AcqState × List SourceEntry → AcqState × List SourceEntry
  | [], acc => acc
  | p :: ps, acc => acquireLoop env lat lon tms now ps (acquireStep env lat lon tms now acc p)

/-- The `NoWeatherData` message thrown by `getWeatherForPoint`
(`index.js` line 252). -/
def noWeatherDataMsg : String :=
  "No se pudieron obtener datos meteorológicos de ninguna fuente"

/-- `getWeatherForPoint` (`index.js` 197-256): walk the providers in
priority order, then fail with `NoWeatherData` when zero sources were
gathered, else merge.  The `none` branch of `mergeWeatherData` is
unreachable here (a non-empty source list always merges); it embeds
the `TypeError` JS would raise there. -/
def getWeatherForPointS (env : AcqEnv) (lat lon tms now : ℚ) (st : AcqState) :
    Except String FusedRecord × AcqState :=
  let r := acquireLoop env lat lon tms now providerPriority (st, [])
  if r.2.length = 0 then (.error noWeatherDataMsg, r.1)
  else
    match mergeWeatherData r.2 with
    | some m => (.ok m, r.1)
    | none => (.error "TypeError", r.1)

/-- `getWeatherForWaypoints` (`index.js` 164-195): process the
waypoints sequentially, sharing the store state; each waypoint's
estimated time is `now + estimatedTimeFromStart minutes`; a per-point
error is caught and recorded as a null-weather entry with the error
message.  Each waypoint carries its own acquisition environment (its
upstream outcomes). -/
def getWeatherForWaypoints (now : ℚ) :
    List (Waypoint × AcqEnv) → AcqState → List RouteEntry × AcqState
  | [], st => ([], st)
  | (wp, env) :: rest, st =>
      let estimatedTime := now + wp.estimatedTimeFromStart * 60000
      let r := getWeatherForPointS env wp.lat wp.lon estimatedTime now st
      let entry : RouteEntry :=
        match r.1 with
        | .ok w => { waypoint := wp, weather := some w, error := none, timestamp := estimatedTime }
        | .error e => { waypoint := wp, weather := none, error := some e, timestamp := estimatedTime }
      let rest2 := getWeatherForWaypoints now rest r.2
      (entry :: rest2.1, rest2.2)

/-- The 400 message of the route endpoint (`index.js` line 68). -/
def waypointsRequiredMsg : String := "Waypoints requeridos"

/-- The route-level response: a 400 rejection, or the weather data
with the identified risks (summary and source list omitted — no claim
mentions them). -/
inductive RouteResponse where
  | badRequest (error : String)
  | ok (weatherData : List RouteEntry) (risks : List RiskAlert)

/-- `POST /weather-for-route` (`index.js` 62-104): reject with 400
exactly when `waypoints` is missing, not an array (both embedded as
`none`) or empty; otherwise answer 200 with the per-waypoint results
and risks. -/
def weatherForRoute (waypoints : Option (List (Waypoint × AcqEnv))) (now : ℚ)
    (st : AcqState) : RouteResponse :=
  match waypoints with
  | none => .badRequest waypointsRequiredMsg
  | some [] => .badRequest waypointsRequiredMsg
  | some wps =>
      let r := getWeatherForWaypoints now wps st
      .ok r.1 (identifyRisks r.1)

/-- The 400 message of the point endpoint (`index.js` line 112). -/
def coordinatesRequiredMsg : String := "Coordenadas requeridas"

/-- The point-level response. -/
inductive PointResponse where
  | badRequest (error : String)
  | ok (weather : FusedRecord)
  | serverError (details : String)

/-- JS truthiness test `!x` on a request field expected to hold a
number: `undefined` and `null` (embedded as `none`) and the number `0`
are falsy.  (`NaN` is also falsy in JS but has no rational
counterpart.) -/
def jsFalsyNum (x : Option ℚ) : Bool :=
  match x with
  | none => true
  | some v => decide (v = 0)

/-- `POST /weather-for-point` (`index.js` 107-138): `if (!lat || !lon)`
answer 400 `Coordenadas requeridas`; otherwise acquire and answer 200,
or 500 if acquisition threw. -/
def weatherForPointHandler (lat lon : Option ℚ) (tms now : ℚ) (env : AcqEnv)
    (st : AcqState) : PointResponse × AcqState :=
  if jsFalsyNum lat || jsFalsyNum lon then (.badRequest coordinatesRequiredMsg, st)
  else
    let r := getWeatherForPointS env (lat.getD 0) (lon.getD 0) tms now st
    match r.1 with
    | .ok w => (.ok w, r.2)
    | .error e => (.serverError e, r.2)

/-- The `data_1h` block of a meteoblue response (`meteoblue.js`): each
series may be missing entirely (`none`) and individual samples may be
null. -/
structure MbData1h where
  time : Option (List ℚ)
  temperature : Option (List (Option ℚ))
  windspeed : Option (List (Option ℚ))
  winddirection : Option (List (Option ℚ))
  precipitation : Option (List (Option ℚ))
  relativehumidity : Option (List (Option ℚ))
  sealevelpressure : Option (List (Option ℚ))
  totalcloudcover : Option (List (Option ℚ))
  visibility : Option (List (Option ℚ))
deriving DecidableEq, Repr

/-- `MeteoblueProvider.getValueAtIndex` (`meteoblue.js` 89-91):
`array && array[index] !== undefined ? array[index] : null` — null for
a missing series, an out-of-range index, or a null sample. -/
def getValueAtIndex (arr : Option (List (Option ℚ))) (index : Nat) : Option ℚ :=
  match arr with
  | none => none
  | some l =>
      match l[index]? with
      | none => none
      | some v => v

/-- The scanning loop of `parseResponse` that finds the index of the
time sample closest to the target (strict improvement keeps the first
minimiser, as in the source). -/
def closestIndexAux (target : ℚ) : List ℚ → Nat → Nat → ℚ → Nat
  | [], _, best, _ => best
  | t :: ts, i, best, bestDiff =>
      if |t - target| < bestDiff then closestIndexAux target ts (i + 1) i |t - target|
      else closestIndexAux target ts (i + 1) best bestDiff

/-- The index of the forecast slot nearest to the target time
(`meteoblue.js` 48-60). -/
def closestIndex (times : List ℚ) (target : ℚ) : Nat :=
  match times with
  | [] => 0
  | t0 :: rest => closestIndexAux target rest 1 0 |t0 - target|

/-- `MeteoblueProvider.calculateConfidence` (`meteoblue.js` 93-102):
discrete confidence bands from the absolute time gap in
milliseconds. -/
def mbCalculateConfidence (timeDifference : ℚ) : ℚ :=
  let hoursOff := timeDifference / 3600000
  if hoursOff ≤ 1 then 0.95
  else if hoursOff ≤ 3 then 0.85
  else if hoursOff ≤ 6 then 0.75
  else if hoursOff ≤ 12 then 0.65
  else 0.50

/-- `MeteoblueProvider.parseResponse` (`meteoblue.js` 41-87): reject a
response without `data_1h`/`time`; pick the nearest time slot; read
every field through `getValueAtIndex` (`precipitation` coalesced to 0);
then fail hard when `temperature` or `windSpeed` is null, and
otherwise return the record with the remaining absent fields as null.
An empty `time` array makes the JS scan throw (`times[0]` is
undefined), caught and rethrown as a parse error. -/
def mbParseResponse (data1h : Option MbData1h) (target : ℚ) : Except String WeatherData :=
  match data1h with
  | none => .error "Invalid meteoblue response format"
  | some d =>
      match d.time with
      | none => .error "Invalid meteoblue response format"
      | some [] => .error "Error parsing meteoblue data"
      | some (t0 :: rest) =>
          let ci := closestIndex (t0 :: rest) target
          let temperature := getValueAtIndex d.temperature ci
          let windSpeed := getValueAtIndex d.windspeed ci
          if temperature = none ∨ windSpeed = none then
            .error "Missing critical weather data from meteoblue"
          else
            .ok {
              temperature := temperature
              windSpeed := windSpeed
              windDirection := getValueAtIndex d.winddirection ci
              precipitation := (getValueAtIndex d.precipitation ci).getD 0
              humidity := getValueAtIndex d.relativehumidity ci
              pressure := getValueAtIndex d.sealevelpressure ci
              cloudCover := getValueAtIndex d.totalcloudcover ci
              visibility := getValueAtIndex d.visibility ci
              provider := .meteoblue
              confidence := mbCalculateConfidence |((t0 :: rest).getD ci 0) - target|
            }

/-- AEMET `temperatura`/`humedadRelativa` blocks: optional maxima,
minima and media values. -/
structure AemetTemperature where
  maxima : Option ℚ
  minima : Option ℚ
  media : Option ℚ
deriving DecidableEq, Repr

/-- One element of the AEMET `viento` array. -/
structure AemetWind where
  velocidad : Option ℚ
deriving DecidableEq, Repr

/-- One element of the AEMET `precipitacion` array. -/
structure AemetPrecip where
  value : Option ℚ
deriving DecidableEq, Repr

/-- One element of the AEMET `estadoCielo` array. -/
structure AemetSky where
  descripcion : Option String
deriving DecidableEq, Repr

/-- One day of an AEMET municipal forecast. -/
structure AemetDay where
  temperatura : Option AemetTemperature
  viento : Option (List AemetWind)
  precipitacion : Option (List AemetPrecip)
  humedadRelativa : Option AemetTemperature
  estadoCielo : Option (List AemetSky)
deriving DecidableEq, Repr

/-- One element of the AEMET forecast array; `dia` is
`forecast.prediccion.dia`, `none` when `prediccion` or `dia` is
missing. -/
structure AemetForecast where
  dia : Option (List AemetDay)
deriving DecidableEq, Repr

/-- `AemetProvider.extractTemperature` (`aemet.js` 129-138): null when
the whole block is absent; otherwise maxima, else minima, else media,
else the hard-coded fallback `20`.  It never fails. -/
def extractTemperature (tempData : Option AemetTemperature) : Option ℚ :=
  match tempData with
  | none => none
  | some t =>
      match t.maxima with
      | some v => some v
      | none =>
          match t.minima with
          | some v => some v
          | none =>
              match t.media with
              | some v => some v
              | none => some 20

/-- `AemetProvider.extractWindSpeed` (`aemet.js` 140-147): the first
element's `velocidad`, or the hard-coded fallback `10` whenever the
block or the field is absent.  It never returns null and never
fails. -/
def extractWindSpeed (windData : Option (List AemetWind)) : ℚ :=
  match windData with
  | none => 10
  | some [] => 10
  | some (w :: _) =>
      match w.velocidad with
      | some v => v
      | none => 10

/-- `AemetProvider.extractPrecipitation` (`aemet.js` 156-163). -/
def extractPrecipitation (precipData : Option (List AemetPrecip)) : ℚ :=
  match precipData with
  | none => 0
  | some [] => 0
  | some (p :: _) =>
      match p.value with
      | some v => v
      | none => 0

/-- `AemetProvider.extractHumidity` (`aemet.js` 165-173): maxima, else
minima, else media, else null (no fallback value). -/
def extractHumidity (humidityData : Option AemetTemperature) : Option ℚ :=
  match humidityData with
  | none => none
  | some h =>
      match h.maxima with
      | some v => some v
      | none =>
          match h.minima with
          | some v => some v
          | none => h.media

/-- JS `String.prototype.includes` over character lists: the pattern
occurs contiguously somewhere in the text. -/
def includesChars (pat : List Char) : List Char → Bool
  | [] => List.isPrefixOf pat []
  | c :: rest => List.isPrefixOf pat (c :: rest) || includesChars pat rest

/-- `AemetProvider.extractCloudCover` (`aemet.js` 175-190): map the
first sky description to a cloud percentage by keyword, null when the
block, the first element or its description is absent. -/
def extractCloudCover (skyData : Option (List AemetSky)) : Option ℚ :=
  match skyData with
  | none => none
  | some [] => none
  | some (sky :: _) =>
      match sky.descripcion with
      | none => none
      | some desc =>
          let d := desc.toLower.data
          if includesChars "despejado".data d then some 10
          else if includesChars "poco nuboso".data d then some 25
          else if includesChars "intervalos".data d then some 50
          else if includesChars "nuboso".data d then some 75
          else if includesChars "cubierto".data d then some 90
          else some 50

/-- `AemetProvider.parseResponse` (`aemet.js` 89-127): fail on an
empty forecast array or a malformed `prediccion.dia` structure;
otherwise build the record from the first day through the extractors
(`pressure` and `visibility` always null; the compass-text wind
direction is not embedded).  Note that it performs no
critical-field validation: a day with every field absent still
yields a successful record. -/
def aemetParseResponse (forecastData : List AemetForecast) : Except String WeatherData :=
  match forecastData with
  | [] => .error "No forecast data available from AEMET"
  | forecast :: _ =>
      match forecast.dia with
      | none => .error "Invalid AEMET forecast structure"
      | some [] => .error "Invalid AEMET forecast structure"
      | some (today :: _) =>
          .ok {
            temperature := extractTemperature today.temperatura
            windSpeed := some (extractWindSpeed today.viento)
            windDirection := none
            precipitation := extractPrecipitation today.precipitacion
            humidity := extractHumidity today.humedadRelativa
            pressure := none
            cloudCover := extractCloudCover today.estadoCielo
            visibility := none
            provider := .aemet
            confidence := 0.80
          }

/-- A concrete meteoblue record whose self-reported confidence is
0.95 (the adapter's nearest-slot band). -/
def mbSample : WeatherData :=
  { temperature := some 20, windSpeed := some 10, windDirection := some 180,
    precipitation := 0, humidity := none, pressure := none, cloudCover := none,
    visibility := none, provider := .meteoblue, confidence := 0.95 }

/-- C1: the claim says the fused confidence is the 0.75/0.85/0.95 step
function of the contributor count, independent of any source's
self-reported confidence.  The code computes exactly that step
function in `calculateConfidence`, but `Object.assign(merged,
primaryData)` then overwrites the `confidence` field with the primary
record's own confidence: with a single meteoblue source whose
self-reported confidence is 0.95, the fused record carries 0.95 where
the claim (and the computed-then-discarded aggregate) says 0.75. -/
theorem mergeWeatherData_confidence_clobbered :
    (mergeWeatherData [{ provider := .meteoblue, data := mbSample, cached := false }]).map
        (fun r => r.confidence) = some 0.95
    ∧ calculateConfidence [{ provider := .meteoblue, data := mbSample, cached := false }] = 0.75
    ∧ (0.95 : ℚ) ≠ 0.75 := by
  refine ⟨rfl, rfl, by norm_num⟩

/-- C9: when the backing store is unavailable, a weather-cache lookup
behaves as a miss (`RedisClient.get` returns null), a cache write is a
no-op (`setex` returns false without touching the store), and every
rate-limit check is allowed with the key state untouched (`incr` falls
back to 1, which never exceeds any configured maximum).  All three
operations are total — the JS wrappers catch every store error — so
nothing is raised to the caller. -/
theorem store_unavailable_fail_open :
    (∀ (cache : CacheKey → Option (WeatherData × ℚ)) (k : CacheKey) (t : ℚ),
        cacheGet { avail := false, cache := cache } k t = none)
    ∧ (∀ (cache : CacheKey → Option (WeatherData × ℚ)) (k : CacheKey) (ttl : ℚ)
          (d : WeatherData) (t : ℚ),
        cacheSetex { avail := false, cache := cache } k ttl d t = { avail := false, cache := cache })
    ∧ (∀ (p : Provider) (t : ℚ) (s : Option LimiterEntry),
        checkRateLimit false (limits p) t s = (true, s)) := by
  refine ⟨fun _ _ _ => rfl, fun _ _ _ _ _ => rfl, fun p t s => ?_⟩
  cases p <;> rfl

/-- C10: `POST /weather-for-point` validates with `if (!lat || !lon)`,
and JS treats the number `0` as falsy, so any request whose latitude
or longitude equals 0 is answered with the 400 `Coordenadas
requeridas` rejection before acquisition runs — equator and prime
meridian points can never be queried. -/
theorem weatherForPoint_zero_coordinates_rejected
    (lat lon : Option ℚ) (tms now : ℚ) (env : AcqEnv) (st : AcqState)
    (h : lat = some 0 ∨ lon = some 0) :
    weatherForPointHandler lat lon tms now env st = (.badRequest coordinatesRequiredMsg, st) := by
  rcases h with h | h <;> subst h <;>
    simp [weatherForPointHandler, jsFalsyNum]

/-- A trivial acquisition world and state used to instantiate
theorems at concrete inputs. -/
def noopEnv : AcqEnv :=
  { available := fun _ => false, adapter := fun _ => .failure "unconfigured" }

/-- An initial state: available store, empty cache, no rate-limit
keys, no upstream calls issued. -/
def initialState : AcqState :=
  { store := { avail := true, cache := fun _ => none }, limiter := fun _ => none, calls := [] }

/-- Witness for `weatherForPoint_zero_coordinates_rejected` at
latitude 0 (an equator point with a perfectly ordinary longitude). -/
theorem weatherForPoint_zero_coordinates_rejected_witness :
    weatherForPointHandler (some 0) (some 40) 0 0 noopEnv initialState
      = (.badRequest coordinatesRequiredMsg, initialState) :=
  weatherForPoint_zero_coordinates_rejected (some 0) (some 40) 0 0 noopEnv initialState
    (Or.inl rfl)

/-- An AEMET forecast day whose temperature block is present but
empty and whose wind array is empty: both fields required for risk
classification are effectively absent upstream. -/
def emptyAemetDay : AemetDay :=
  { temperatura := some { maxima := none, minima := none, media := none },
    viento := some [], precipitacion := none, humedadRelativa := none,
    estadoCielo := none }

/-- C3 counterexample: the claim says every adapter fails with an
error when temperature or wind speed is absent upstream.  The AEMET
adapter does not: on a structurally valid forecast whose temperature
values and wind entries are all missing it succeeds, substituting the
hard-coded fallbacks 20 °C and 10 km/h — a degraded record, not an
error. -/
theorem aemet_missing_fields_degrade :
    aemetParseResponse [{ dia := some [emptyAemetDay] }]
      = .ok { temperature := some 20, windSpeed := some 10, windDirection := none,
              precipitation := 0, humidity := none, pressure := none,
              cloudCover := none, visibility := none, provider := .aemet,
              confidence := 0.80 } := rfl

/-- C3 amended: the meteoblue adapter alone enforces the contract —
its parse succeeds exactly when temperature and wind speed are present
at the chosen slot (so absent optional fields never fail it), and a
successful record carries each absent optional field as null; the
AEMET adapter never fails on absent temperature or wind speed,
substituting the fallback 20 °C when the temperature block is present
but empty (null when wholly absent) and the fallback 10 km/h for a
missing wind speed. -/
theorem adapter_required_fields_behavior :
    (∀ (d : MbData1h) (t0 : ℚ) (rest : List ℚ) (target : ℚ),
        d.time = some (t0 :: rest) →
        ((∃ r, mbParseResponse (some d) target = .ok r) ↔
          (getValueAtIndex d.temperature (closestIndex (t0 :: rest) target) ≠ none
            ∧ getValueAtIndex d.windspeed (closestIndex (t0 :: rest) target) ≠ none)))
    ∧ (∀ (d : MbData1h) (t0 : ℚ) (rest : List ℚ) (target : ℚ) (r : WeatherData),
        d.time = some (t0 :: rest) →
        mbParseResponse (some d) target = .ok r →
        r.humidity = getValueAtIndex d.relativehumidity (closestIndex (t0 :: rest) target)
          ∧ r.pressure = getValueAtIndex d.sealevelpressure (closestIndex (t0 :: rest) target)
          ∧ r.cloudCover = getValueAtIndex d.totalcloudcover (closestIndex (t0 :: rest) target)
          ∧ r.visibility = getValueAtIndex d.visibility (closestIndex (t0 :: rest) target))
    ∧ (∀ (today : AemetDay) (ds : List AemetDay) (fs : List AemetForecast),
        ∃ r, aemetParseResponse ({ dia := some (today :: ds) } :: fs) = .ok r
          ∧ r.temperature = extractTemperature today.temperatura
          ∧ r.windSpeed = some (extractWindSpeed today.viento))
    ∧ extractTemperature (some { maxima := none, minima := none, media := none }) = some 20
    ∧ (∀ t : AemetTemperature, extractTemperature (some t) ≠ none)
    ∧ extractWindSpeed none = 10 ∧ extractWindSpeed (some []) = 10 := by
  refine ⟨?_, ?_, ?_, rfl, ?_, rfl, rfl⟩
  · intro d t0 rest target h
    simp only [mbParseResponse, h]
    by_cases hc : getValueAtIndex d.temperature (closestIndex (t0 :: rest) target) = none
        ∨ getValueAtIndex d.windspeed (closestIndex (t0 :: rest) target) = none
    · simp only [if_pos hc]
      constructor
      · rintro ⟨r, hr⟩; cases hr
      · rintro ⟨h1, h2⟩
        rcases hc with hc | hc
        · exact absurd hc h1
        · exact absurd hc h2
    · simp only [if_neg hc]
      push_neg at hc
      exact ⟨fun _ => hc, fun _ => ⟨_, rfl⟩⟩
  · intro d t0 rest target r h hok
    simp only [mbParseResponse, h] at hok
    by_cases hc : getValueAtIndex d.temperature (closestIndex (t0 :: rest) target) = none
        ∨ getValueAtIndex d.windspeed (closestIndex (t0 :: rest) target) = none
    · simp only [if_pos hc] at hok; cases hok
    · simp only [if_neg hc] at hok
      cases hok
      exact ⟨rfl, rfl, rfl, rfl⟩
  · intro today ds fs
    exact ⟨_, rfl, rfl, rfl⟩
  · intro t
    cases t with
    | mk maxima minima media =>
        cases maxima <;> cases minima <;> cases media <;> simp [extractTemperature]

/-- Witness for `adapter_required_fields_behavior`: a meteoblue
response with a single slot carrying temperature and wind speed
parses successfully. -/
theorem adapter_required_fields_behavior_witness :
    ∃ r, mbParseResponse
        (some { time := some [0], temperature := some [some 5], windspeed := some [some 7],
                winddirection := none, precipitation := none, relativehumidity := none,
                sealevelpressure := none, totalcloudcover := none, visibility := none }) 0
      = .ok r :=
  (adapter_required_fields_behavior.1
      { time := some [0], temperature := some [some 5], windspeed := some [some 7],
        winddirection := none, precipitation := none, relativehumidity := none,
        sealevelpressure := none, totalcloudcover := none, visibility := none }
      0 [] 0 rfl).mpr (by decide)

/-- The full membership characterization of the alerts produced for
one route entry: exactly one wind alert when wind exceeds 25 (high
above 40), one precipitation alert above 5 (high above 15), one
medium temperature alert outside [0, 35], and one visibility alert
when visibility is present, truthy and below 1000 (high below 500). -/
lemma mem_checksForEntry (i : Nat) (e : RouteEntry) (w : FusedRecord)
    (hw : e.weather = some w) (a : RiskAlert) :
    a ∈ checksForEntry i e ↔
      (jsGtOpt w.windSpeed 25 = true ∧ a =
        { kind := RiskType.wind,
          level := if jsGtOpt w.windSpeed 40 then RiskLevel.high else RiskLevel.medium,
          value := w.windSpeed.getD 0, pointIndex := i + 1,
          lat := e.waypoint.lat, lon := e.waypoint.lon, timestamp := e.timestamp })
      ∨ (w.precipitation > 5 ∧ a =
        { kind := RiskType.precipitation,
          level := if w.precipitation > 15 then RiskLevel.high else RiskLevel.medium,
          value := w.precipitation, pointIndex := i + 1,
          lat := e.waypoint.lat, lon := e.waypoint.lon, timestamp := e.timestamp })
      ∨ ((jsLtOpt w.temperature 0 || jsGtOpt w.temperature 35) = true ∧ a =
        { kind := RiskType.temperature, level := RiskLevel.medium,
          value := w.temperature.getD 0, pointIndex := i + 1,
          lat := e.waypoint.lat, lon := e.waypoint.lon, timestamp := e.timestamp })
      ∨ (∃ v, w.visibility = some v ∧ (v ≠ 0 ∧ v < 1000) ∧ a =
        { kind := RiskType.visibility,
          level := if v < 500 then RiskLevel.high else RiskLevel.medium,
          value := v, pointIndex := i + 1,
          lat := e.waypoint.lat, lon := e.waypoint.lon, timestamp := e.timestamp }) := by
  simp only [checksForEntry, hw]
  cases hv : w.visibility with
  | none => simp [List.mem_append]
  | some v =>
      simp only [List.mem_append, List.mem_ite_nil_right, List.mem_singleton,
        Option.some.injEq]
      constructor
      · rintro (((h | h) | h) | h)
        · exact Or.inl h
        · exact Or.inr (Or.inl h)
        · exact Or.inr (Or.inr (Or.inl h))
        · exact Or.inr (Or.inr (Or.inr ⟨v, rfl, h.1, h.2⟩))
      · rintro (h | h | h | ⟨u, hu, hcond, ha⟩)
        · exact Or.inl (Or.inl (Or.inl h))
        · exact Or.inl (Or.inl (Or.inr h))
        · exact Or.inl (Or.inr h)
        · cases hu; exact Or.inr ⟨hcond, ha⟩

/-- Every alert produced for route entry `i` names `Punto i+1`. -/
lemma checksForEntry_pointIndex (i : Nat) (e : RouteEntry) :
    ∀ a ∈ checksForEntry i e, a.pointIndex = i + 1 := by
  intro a ha
  cases hw : e.weather with
  | none => simp [checksForEntry, hw] at ha
  | some w =>
      rcases (mem_checksForEntry i e w hw a).mp ha with
        ⟨_, rfl⟩ | ⟨_, rfl⟩ | ⟨_, rfl⟩ | ⟨v, _, _, rfl⟩ <;> rfl

/-- Alerts produced later in the scan refer to later waypoints. -/
lemma identifyRisksAux_pointIndex_ge :
    ∀ (l : List RouteEntry) (i : Nat) (a : RiskAlert),
      a ∈ identifyRisksAux i l → i + 1 ≤ a.pointIndex := by
  intro l
  induction l with
  | nil => intro i a ha; simp [identifyRisksAux] at ha
  | cons r rs ih =>
      intro i a ha
      rcases List.mem_append.mp ha with h | h
      · exact (checksForEntry_pointIndex i r a h).ge
      · exact Nat.le_of_succ_le (ih (i + 1) a h)

/-- The emitted alert list is ordered by waypoint index. -/
lemma identifyRisksAux_pairwise :
    ∀ (l : List RouteEntry) (i : Nat),
      (identifyRisksAux i l).Pairwise (fun a b => a.pointIndex ≤ b.pointIndex) := by
  intro l
  induction l with
  | nil => intro i; simp [identifyRisksAux]
  | cons r rs ih =>
      intro i
      refine List.pairwise_append.mpr ⟨?_, ih (i + 1), ?_⟩
      · refine List.pairwise_of_forall_mem_list ?_
        intro a ha b hb
        rw [checksForEntry_pointIndex i r a ha, checksForEntry_pointIndex i r b hb]
      · intro a ha b hb
        rw [checksForEntry_pointIndex i r a ha]
        exact Nat.le_of_succ_le (identifyRisksAux_pointIndex_ge rs (i + 1) b hb)

/-- A fused record with calm conditions except a reported visibility
of exactly 0 m (dense fog). -/
def fogRecord : FusedRecord :=
  { temperature := some 20, windSpeed := some 10, windDirection := none,
    precipitation := 0, humidity := none, pressure := none, cloudCover := none,
    visibility := some 0, sources := [.meteoblue], primary := .meteoblue,
    confidence := 0.95, warnings := [] }

/-- A route entry carrying `fogRecord`. -/
def fogEntry : RouteEntry :=
  { waypoint := { lat := 40, lon := -3 }, weather := some fogRecord,
    error := none, timestamp := 0 }

/-- C5 counterexample: the claim says visibility, when present,
yields a high alert below 500 m.  A present visibility of exactly 0 m
is below 500 m, yet the classifier emits no alert at all, because the
guard `weather.visibility && ...` treats the number 0 as absent. -/
theorem identifyRisks_zero_visibility_no_alert :
    fogRecord.visibility = some 0 ∧ (0 : ℚ) < 500
    ∧ identifyRisks [fogEntry] = [] := by
  refine ⟨rfl, by norm_num, rfl⟩

/-- C5 amended: the classifier alerts exactly when a threshold is
strictly breached — wind above 25 km/h (high above 40), precipitation
above 5 mm/h (high above 15), temperature strictly outside [0, 35]
with only a medium tier, and visibility, when present *and nonzero*,
below 1000 m (high below 500 m); at most one alert per hazard type is
emitted for a record, and across a route the alerts appear in
waypoint order. -/
theorem identifyRisks_threshold_spec
    (entry : RouteEntry) (w : FusedRecord) (hw : entry.weather = some w) :
    ((∃ a ∈ identifyRisks [entry], a.kind = RiskType.wind) ↔ jsGtOpt w.windSpeed 25 = true)
    ∧ ((∃ a ∈ identifyRisks [entry], a.kind = RiskType.wind ∧ a.level = RiskLevel.high)
        ↔ jsGtOpt w.windSpeed 40 = true)
    ∧ ((∃ a ∈ identifyRisks [entry], a.kind = RiskType.precipitation) ↔ w.precipitation > 5)
    ∧ ((∃ a ∈ identifyRisks [entry], a.kind = RiskType.precipitation ∧ a.level = RiskLevel.high)
        ↔ w.precipitation > 15)
    ∧ ((∃ a ∈ identifyRisks [entry], a.kind = RiskType.temperature)
        ↔ (jsLtOpt w.temperature 0 = true ∨ jsGtOpt w.temperature 35 = true))
    ∧ (∀ a ∈ identifyRisks [entry], a.kind = RiskType.temperature → a.level = RiskLevel.medium)
    ∧ ((∃ a ∈ identifyRisks [entry], a.kind = RiskType.visibility)
        ↔ (∃ v, w.visibility = some v ∧ v ≠ 0 ∧ v < 1000))
    ∧ ((∃ a ∈ identifyRisks [entry], a.kind = RiskType.visibility ∧ a.level = RiskLevel.high)
        ↔ (∃ v, w.visibility = some v ∧ v ≠ 0 ∧ v < 500))
    ∧ (∀ a ∈ identifyRisks [entry], ∀ b ∈ identifyRisks [entry], a.kind = b.kind → a = b)
    ∧ (∀ results : List RouteEntry,
        (identifyRisks results).Pairwise (fun a b => a.pointIndex ≤ b.pointIndex)) := by
  have hR : identifyRisks [entry] = checksForEntry 0 entry := by
    simp [identifyRisks, identifyRisksAux]
  have M := mem_checksForEntry 0 entry w hw
  have hmem : ∀ x, x ∈ checksForEntry 0 entry → x ∈ identifyRisks [entry] := by
    intro x hx; rw [hR]; exact hx
  refine ⟨?_, ?_, ?_, ?_, ?_, ?_, ?_, ?_, ?_, ?_⟩
  · constructor
    · rintro ⟨a, ha, hk⟩
      rw [hR] at ha
      rcases (M a).mp ha with ⟨hc, rfl⟩ | ⟨hc, rfl⟩ | ⟨hc, rfl⟩ | ⟨v, hv, hc, rfl⟩ <;>
        first | exact hc | simp at hk
    · intro hc
      exact ⟨_, hmem _ ((M _).mpr (Or.inl ⟨hc, rfl⟩)), rfl⟩
  · constructor
    · rintro ⟨a, ha, hk, hl⟩
      rw [hR] at ha
      rcases (M a).mp ha with ⟨hc, rfl⟩ | ⟨hc, rfl⟩ | ⟨hc, rfl⟩ | ⟨v, hv, hc, rfl⟩ <;>
        first
        | (by_cases h40 : jsGtOpt w.windSpeed 40 = true
           · exact h40
           · simp only [Bool.not_eq_true] at h40
             simp [h40] at hl)
        | simp at hk
    · intro h40
      have h25 : jsGtOpt w.windSpeed 25 = true := by
        cases hws : w.windSpeed with
        | none => simp [jsGtOpt, hws] at h40; norm_num at h40
        | some v =>
            simp only [jsGtOpt, hws, decide_eq_true_eq] at h40 ⊢
            linarith
      exact ⟨_, hmem _ ((M _).mpr (Or.inl ⟨h25, rfl⟩)), rfl, by simp [h40]⟩
  · constructor
    · rintro ⟨a, ha, hk⟩
      rw [hR] at ha
      rcases (M a).mp ha with ⟨hc, rfl⟩ | ⟨hc, rfl⟩ | ⟨hc, rfl⟩ | ⟨v, hv, hc, rfl⟩ <;>
        first | exact hc | simp at hk
    · intro hc
      exact ⟨_, hmem _ ((M _).mpr (Or.inr (Or.inl ⟨hc, rfl⟩))), rfl⟩
  · constructor
    · rintro ⟨a, ha, hk, hl⟩
      rw [hR] at ha
      rcases (M a).mp ha with ⟨hc, rfl⟩ | ⟨hc, rfl⟩ | ⟨hc, rfl⟩ | ⟨v, hv, hc, rfl⟩ <;>
        first
        | (by_cases h15 : w.precipitation > 15
           · exact h15
           · simp [h15] at hl)
        | simp at hk
    · intro h15
      exact ⟨_, hmem _ ((M _).mpr (Or.inr (Or.inl ⟨by linarith, rfl⟩))), rfl,
        by simp [h15]⟩
  · constructor
    · rintro ⟨a, ha, hk⟩
      rw [hR] at ha
      rcases (M a).mp ha with ⟨hc, rfl⟩ | ⟨hc, rfl⟩ | ⟨hc, rfl⟩ | ⟨v, hv, hc, rfl⟩ <;>
        first
        | (simp only [Bool.or_eq_true] at hc; exact hc)
        | simp at hk
    · intro hc
      refine ⟨_, hmem _ ((M _).mpr (Or.inr (Or.inr (Or.inl ⟨?_, rfl⟩)))), rfl⟩
      simp only [Bool.or_eq_true]
      exact hc
  · intro a ha hk
    rw [hR] at ha
    rcases (M a).mp ha with ⟨hc, rfl⟩ | ⟨hc, rfl⟩ | ⟨hc, rfl⟩ | ⟨v, hv, hc, rfl⟩ <;>
      first | rfl | simp at hk
  · constructor
    · rintro ⟨a, ha, hk⟩
      rw [hR] at ha
      rcases (M a).mp ha with ⟨hc, rfl⟩ | ⟨hc, rfl⟩ | ⟨hc, rfl⟩ | ⟨v, hv, hc, rfl⟩ <;>
        first | exact ⟨v, hv, hc.1, hc.2⟩ | simp at hk
    · rintro ⟨v, hv, hne, hlt⟩
      exact ⟨_, hmem _ ((M _).mpr (Or.inr (Or.inr (Or.inr ⟨v, hv, ⟨hne, hlt⟩, rfl⟩)))), rfl⟩
  · constructor
    · rintro ⟨a, ha, hk, hl⟩
      rw [hR] at ha
      rcases (M a).mp ha with ⟨hc, rfl⟩ | ⟨hc, rfl⟩ | ⟨hc, rfl⟩ | ⟨v, hv, hc, rfl⟩ <;>
        first
        | (by_cases h500 : v < 500
           · exact ⟨v, hv, hc.1, h500⟩
           · simp [h500] at hl)
        | simp at hk
    · rintro ⟨v, hv, hne, hlt⟩
      exact ⟨_, hmem _ ((M _).mpr (Or.inr (Or.inr (Or.inr
        ⟨v, hv, ⟨hne, by linarith⟩, rfl⟩)))), rfl, by simp [hlt]⟩
  · intro a ha b hb hk
    rw [hR] at ha hb
    rcases (M a).mp ha with ⟨_, rfl⟩ | ⟨_, rfl⟩ | ⟨_, rfl⟩ | ⟨v, hv, _, rfl⟩ <;>
      rcases (M b).mp hb with ⟨_, rfl⟩ | ⟨_, rfl⟩ | ⟨_, rfl⟩ | ⟨u, hu, _, rfl⟩ <;>
      first
      | rfl
      | (cases Option.some.inj (hv.symm.trans hu); rfl)
      | simp at hk
  · intro results
    exact identifyRisksAux_pairwise results 0

/-- A fused record with a 45 km/h wind. -/
def stormRecord : FusedRecord :=
  { temperature := some 20, windSpeed := some 45, windDirection := none,
    precipitation := 0, humidity := none, pressure := none, cloudCover := none,
    visibility := none, sources := [.meteoblue], primary := .meteoblue,
    confidence := 0.95, warnings := [] }

/-- A route entry carrying `stormRecord`. -/
def stormEntry : RouteEntry :=
  { waypoint := { lat := 40, lon := -3 }, weather := some stormRecord,
    error := none, timestamp := 0 }

/-- Witness for `identifyRisks_threshold_spec`: a 45 km/h wind yields
a high wind alert. -/
theorem identifyRisks_threshold_spec_witness :
    ∃ a ∈ identifyRisks [stormEntry],
      a.kind = RiskType.wind ∧ a.level = RiskLevel.high :=
  (identifyRisks_threshold_spec stormEntry stormRecord rfl).2.1.mpr (by decide)

/-- Behaviour of a run of checks against a live key that never
expires during the run: every check increments the counter by one,
the expiry deadline is left untouched, and the `k`-th check of the
run is allowed iff the incremented counter stays within the
maximum. -/
lemma runChecks_within (cfg : RateLimitConfig) (d : ℚ) :
    ∀ (ts : List ℚ) (c : Nat), (∀ t ∈ ts, t < d) →
      runChecks true cfg ts (some { count := c, expiry := some d }) =
        ((List.range ts.length).map (fun i => decide (c + i + 1 ≤ cfg.max)),
         some { count := c + ts.length, expiry := some d }) := by
  intro ts
  induction ts with
  | nil => intro c h; simp [runChecks]
  | cons t ts ih =>
      intro c h
      have ht : ¬ d ≤ t := not_le.mpr (h t (List.mem_cons_self t ts))
      have hstep : checkRateLimit true cfg t (some { count := c, expiry := some d })
          = (decide (c + 1 ≤ cfg.max), some { count := c + 1, expiry := some d }) := by
        simp [checkRateLimit, liveEntry, ht]
      simp only [runChecks, hstep]
      rw [ih (c + 1) (fun u hu => h u (List.mem_cons_of_mem t hu))]
      congr 1
      · rw [List.length_cons, List.range_succ_eq_map, List.map_cons, List.map_map]
        congr 1
        apply List.map_congr_left
        intro i _
        simp only [Function.comp_apply]
        rw [show c + (i + 1) + 1 = c + 1 + i + 1 from by omega]
      · simp only [List.length_cons, Option.some.injEq, LimiterEntry.mk.injEq]
        exact ⟨by omega, trivial⟩

/-- C2: for every provider, starting from a fresh window, the first
`max` checks are allowed and every later check in the window is
denied (the result of check number `i+1` is exactly `i+1 ≤ max`);
the counter is incremented by every check, denied ones included, so
after `n` checks it reads `n`; the expiry deadline is set by the
first check (the 0→1 increment) and never moved by later checks in
the window; and a check arriving at or after the deadline finds the
key expired, resets the counter to 1, sets a fresh deadline, and is
allowed again. -/
theorem checkRateLimit_window_spec (p : Provider) (t0 : ℚ) (ts : List ℚ)
    (hts : ∀ t ∈ ts, t < t0 + (limits p).window) :
    (runChecks true (limits p) (t0 :: ts) none).1
        = (List.range (ts.length + 1)).map (fun i => decide (i + 1 ≤ (limits p).max))
    ∧ (runChecks true (limits p) (t0 :: ts) none).2
        = some { count := ts.length + 1, expiry := some (t0 + (limits p).window) }
    ∧ (∀ (c : Nat) (dl t : ℚ), dl ≤ t →
        checkRateLimit true (limits p) t (some { count := c, expiry := some dl })
          = (true, some { count := 1, expiry := some (t + (limits p).window) })) := by
  have hone : decide (1 ≤ (limits p).max) = true := by cases p <;> rfl
  have h0 : checkRateLimit true (limits p) t0 none
      = (decide (1 ≤ (limits p).max),
         some { count := 1, expiry := some (t0 + (limits p).window) }) := by
    simp [checkRateLimit, liveEntry]
  have hrest := runChecks_within (limits p) (t0 + (limits p).window) ts 1 hts
  have hrun : runChecks true (limits p) (t0 :: ts) none
      = (decide (1 ≤ (limits p).max)
           :: (List.range ts.length).map (fun i => decide (1 + i + 1 ≤ (limits p).max)),
         some { count := 1 + ts.length, expiry := some (t0 + (limits p).window) }) := by
    simp only [runChecks, h0]
    rw [hrest]
  refine ⟨?_, ?_, ?_⟩
  · rw [hrun]
    dsimp only
    rw [List.range_succ_eq_map, List.map_cons, List.map_map]
    congr 1
    apply List.map_congr_left
    intro i _
    simp only [Function.comp_apply]
    rw [show 1 + i + 1 = i + 1 + 1 from by omega]
  · rw [hrun]
    dsimp only
    simp only [Option.some.injEq, LimiterEntry.mk.injEq]
    exact ⟨by omega, trivial⟩
  · intro c dl t h
    simp [checkRateLimit, liveEntry, h, hone]

/-- Witness for `checkRateLimit_window_spec`: three meteoblue checks
at times 0, 1, 2 seconds are all allowed (the maximum is 200), the
counter reads 3, and the deadline stays at the window set by the
first check. -/
theorem checkRateLimit_window_spec_witness :
    (runChecks true (limits .meteoblue) [0, 1, 2] none).1 = [true, true, true]
    ∧ (runChecks true (limits .meteoblue) [0, 1, 2] none).2
        = some { count := 3, expiry := some 3600 } := by
  have h := checkRateLimit_window_spec .meteoblue 0 [1, 2] (by
    intro t ht
    simp only [List.mem_cons, List.not_mem_nil, or_false] at ht
    rcases ht with rfl | rfl <;> norm_num [limits])
  exact ⟨h.1.trans (by decide), h.2.1.trans (by simp [limits])⟩

/-- Inserting into the sorted list never yields an empty list. -/
lemma insertByPriority_ne_nil (x : SourceEntry) (l : List SourceEntry) :
    insertByPriority x l ≠ [] := by
  cases l with
  | nil => simp [insertByPriority]
  | cons y ys => simp only [insertByPriority]; split <;> simp

/-- The sort yields the empty list only for the empty input. -/
lemma sortByPriority_eq_nil {l : List SourceEntry} :
    sortByPriority l = [] ↔ l = [] := by
  cases l with
  | nil => simp [sortByPriority]
  | cons x xs => simp [sortByPriority, insertByPriority_ne_nil]

/-- Insertion is a permutation action. -/
lemma insertByPriority_perm (x : SourceEntry) (l : List SourceEntry) :
    (insertByPriority x l).Perm (x :: l) := by
  induction l with
  | nil => simp [insertByPriority]
  | cons y ys ih =>
      simp only [insertByPriority]
      split
      · exact (ih.cons y).trans (List.Perm.swap x y ys)
      · exact List.Perm.refl _

/-- The sorted source list is a permutation of the input, as for any
in-place JS sort. -/
lemma sortByPriority_perm (l : List SourceEntry) : (sortByPriority l).Perm l := by
  induction l with
  | nil => simp [sortByPriority]
  | cons x xs ih =>
      exact (insertByPriority_perm x (sortByPriority xs)).trans (ih.cons x)

/-- The head of the sorted list is an input entry of maximal priority
weight. -/
lemma sortByPriority_head_max :
    ∀ (l : List SourceEntry) (x : SourceEntry) (rest : List SourceEntry),
      sortByPriority l = x :: rest →
      x ∈ l ∧ ∀ y ∈ l, priority y.provider ≤ priority x.provider := by
  intro l
  induction l with
  | nil => intro x rest h; simp [sortByPriority] at h
  | cons a as ih =>
      intro x rest h
      simp only [sortByPriority] at h
      cases hs : sortByPriority as with
      | nil =>
          rw [hs] at h
          have has : as = [] := sortByPriority_eq_nil.mp hs
          simp only [insertByPriority] at h
          cases h
          subst has
          refine ⟨List.mem_singleton_self a, ?_⟩
          intro y hy
          rcases List.mem_cons.mp hy with rfl | hy
          · exact le_refl _
          · simp at hy
      | cons b bs =>
          rw [hs] at h
          obtain ⟨hbmem, hbmax⟩ := ih b bs hs
          simp only [insertByPriority] at h
          by_cases hc : priority a.provider < priority b.provider
          · rw [if_pos hc] at h
            cases h
            refine ⟨List.mem_cons_of_mem a hbmem, ?_⟩
            intro y hy
            rcases List.mem_cons.mp hy with rfl | hy
            · exact le_of_lt hc
            · exact hbmax y hy
          · rw [if_neg hc] at h
            cases h
            refine ⟨List.mem_cons_self a as, ?_⟩
            intro y hy
            rcases List.mem_cons.mp hy with rfl | hy
            · exact le_refl _
            · exact le_trans (hbmax y hy) (not_lt.mp hc)

/-- The four priority weights are pairwise distinct. -/
lemma priority_injective : ∀ p q : Provider, priority p = priority q → p = q := by
  intro p q h
  cases p <;> cases q <;> first | rfl | simp [priority] at h

/-- In a source list whose providers are pairwise distinct, an entry
is determined by its provider. -/
lemma eq_of_provider_eq_of_nodup :
    ∀ (l : List SourceEntry), (l.map (fun s => s.provider)).Nodup →
      ∀ x ∈ l, ∀ y ∈ l, x.provider = y.provider → x = y := by
  intro l
  induction l with
  | nil => intro _ x hx; simp at hx
  | cons a as ih =>
      intro hnd x hx y hy hxy
      simp only [List.map_cons, List.nodup_cons] at hnd
      obtain ⟨hna, hnd2⟩ := hnd
      rw [List.mem_cons] at hx hy
      rcases hx with rfl | hx
      · rcases hy with rfl | hy
        · rfl
        · refine absurd ?_ hna
          rw [hxy]
          exact List.mem_map_of_mem _ hy
      · rcases hy with rfl | hy
        · refine absurd ?_ hna
          rw [← hxy]
          exact List.mem_map_of_mem _ hx
        · exact ih hnd2 x hx y hy hxy

/-- `Math.max(...)` bounds every element. -/
lemma le_listMax : ∀ (l : List ℚ), ∀ x ∈ l, x ≤ listMax l := by
  intro l
  induction l with
  | nil => simp
  | cons a as ih =>
      intro x hx
      cases as with
      | nil =>
          simp only [List.mem_singleton] at hx
          subst hx
          simp [listMax]
      | cons b bs =>
          rcases List.mem_cons.mp hx with rfl | hx
          · simp [listMax]
          · exact le_trans (ih x hx) (le_max_right _ _)

/-- `Math.max(...)` of a non-empty list is an element. -/
lemma listMax_mem : ∀ (l : List ℚ), l ≠ [] → listMax l ∈ l := by
  intro l
  induction l with
  | nil => intro h; exact absurd rfl h
  | cons a as ih =>
      intro _
      cases as with
      | nil => simp [listMax]
      | cons b bs =>
          simp only [listMax]
          rcases max_choice a (listMax (b :: bs)) with h | h
          · rw [h]; exact List.mem_cons_self _ _
          · rw [h]; exact List.mem_cons_of_mem a (ih (by simp))

/-- `Math.min(...)` bounds every element from below. -/
lemma listMin_le : ∀ (l : List ℚ), ∀ x ∈ l, listMin l ≤ x := by
  intro l
  induction l with
  | nil => simp
  | cons a as ih =>
      intro x hx
      cases as with
      | nil =>
          simp only [List.mem_singleton] at hx
          subst hx
          simp [listMin]
      | cons b bs =>
          rcases List.mem_cons.mp hx with rfl | hx
          · simp [listMin]
          · exact le_trans (min_le_right _ _) (ih x hx)

/-- `Math.min(...)` of a non-empty list is an element. -/
lemma listMin_mem : ∀ (l : List ℚ), l ≠ [] → listMin l ∈ l := by
  intro l
  induction l with
  | nil => intro h; exact absurd rfl h
  | cons a as ih =>
      intro _
      cases as with
      | nil => simp [listMin]
      | cons b bs =>
          simp only [listMin]
          rcases min_choice a (listMin (b :: bs)) with h | h
          · rw [h]; exact List.mem_cons_self _ _
          · rw [h]; exact List.mem_cons_of_mem a (ih (by simp))

/-- The maximum is invariant under permutation. -/
lemma listMax_perm {l l2 : List ℚ} (h : l.Perm l2) : listMax l = listMax l2 := by
  rcases eq_or_ne l [] with rfl | hne
  · rw [h.symm.eq_nil]
  · have hne2 : l2 ≠ [] := fun h2 => hne (by rw [h2] at h; exact h.eq_nil)
    apply le_antisymm
    · exact le_listMax l2 _ (h.subset (listMax_mem l hne))
    · exact le_listMax l _ (h.symm.subset (listMax_mem l2 hne2))

/-- The minimum is invariant under permutation. -/
lemma listMin_perm {l l2 : List ℚ} (h : l.Perm l2) : listMin l = listMin l2 := by
  rcases eq_or_ne l [] with rfl | hne
  · rw [h.symm.eq_nil]
  · have hne2 : l2 ≠ [] := fun h2 => hne (by rw [h2] at h; exact h.eq_nil)
    apply le_antisymm
    · exact listMin_le l _ (h.symm.subset (listMin_mem l2 hne2))
    · exact listMin_le l2 _ (h.subset (listMin_mem l hne))

/-- C4: fusing a non-empty source list (one entry per provider, as
the acquisition controller builds it) yields exactly one merged
record; its `primary` is a contributing provider of maximal fixed
priority weight, the primary entry's full field set — confidence
included — is the base of the merged record, and any permutation of
the input yields the same primary and the same base fields.  Neither
selection nor base depends on any record's confidence value. -/
theorem mergeWeatherData_primary_priority (sources : List SourceEntry)
    (hne : sources ≠ [])
    (hnd : (sources.map (fun s => s.provider)).Nodup) :
    ∃ r : FusedRecord, mergeWeatherData sources = some r
      ∧ (∃ e ∈ sources, e.provider = r.primary
          ∧ r.temperature = e.data.temperature ∧ r.windSpeed = e.data.windSpeed
          ∧ r.windDirection = e.data.windDirection ∧ r.precipitation = e.data.precipitation
          ∧ r.humidity = e.data.humidity ∧ r.pressure = e.data.pressure
          ∧ r.cloudCover = e.data.cloudCover ∧ r.visibility = e.data.visibility
          ∧ r.confidence = e.data.confidence)
      ∧ (∀ e ∈ sources, priority e.provider ≤ priority r.primary)
      ∧ (∀ sources2 : List SourceEntry, sources2.Perm sources →
          ∃ r2 : FusedRecord, mergeWeatherData sources2 = some r2
            ∧ r2.primary = r.primary
            ∧ r2.temperature = r.temperature ∧ r2.windSpeed = r.windSpeed
            ∧ r2.windDirection = r.windDirection ∧ r2.precipitation = r.precipitation
            ∧ r2.humidity = r.humidity ∧ r2.pressure = r.pressure
            ∧ r2.cloudCover = r.cloudCover ∧ r2.visibility = r.visibility
            ∧ r2.confidence = r.confidence) := by
  cases hs : sortByPriority sources with
  | nil => exact absurd (sortByPriority_eq_nil.mp hs) hne
  | cons x rest =>
      obtain ⟨hx, hmax⟩ := sortByPriority_head_max sources x rest hs
      have hmw : mergeWeatherData sources = some
          { temperature := x.data.temperature, windSpeed := x.data.windSpeed,
            windDirection := x.data.windDirection, precipitation := x.data.precipitation,
            humidity := x.data.humidity, pressure := x.data.pressure,
            cloudCover := x.data.cloudCover, visibility := x.data.visibility,
            sources := List.map (fun s => s.provider) (x :: rest), primary := x.provider,
            confidence := x.data.confidence,
            warnings := if (x :: rest).length > 1 then
              detectWeatherInconsistencies (x :: rest) else [] } := by
        simp only [mergeWeatherData, hs]
      refine ⟨_, hmw, ?_, ?_, ?_⟩
      · exact ⟨x, hx, rfl, rfl, rfl, rfl, rfl, rfl, rfl, rfl, rfl, rfl⟩
      · exact hmax
      · intro sources2 hperm
        cases hs2 : sortByPriority sources2 with
        | nil =>
            have : sources2 = [] := sortByPriority_eq_nil.mp hs2
            subst this
            exact absurd hperm.symm.eq_nil hne
        | cons y rest2 =>
            obtain ⟨hy, hmax2⟩ := sortByPriority_head_max sources2 y rest2 hs2
            have hymem : y ∈ sources := hperm.subset hy
            have hxmem2 : x ∈ sources2 := hperm.symm.subset hx
            have hple : priority y.provider ≤ priority x.provider := hmax y hymem
            have hpge : priority x.provider ≤ priority y.provider := hmax2 x hxmem2
            have hpeq : y.provider = x.provider :=
              priority_injective _ _ (le_antisymm hple hpge)
            have hyx : y = x := eq_of_provider_eq_of_nodup sources hnd y hymem x hx hpeq
            subst hyx
            have hmw2 : mergeWeatherData sources2 = some
                { temperature := y.data.temperature, windSpeed := y.data.windSpeed,
                  windDirection := y.data.windDirection, precipitation := y.data.precipitation,
                  humidity := y.data.humidity, pressure := y.data.pressure,
                  cloudCover := y.data.cloudCover, visibility := y.data.visibility,
                  sources := List.map (fun s => s.provider) (y :: rest2), primary := y.provider,
                  confidence := y.data.confidence,
                  warnings := if (y :: rest2).length > 1 then
                    detectWeatherInconsistencies (y :: rest2) else [] } := by
              simp only [mergeWeatherData, hs2]
            exact ⟨_, hmw2, rfl, rfl, rfl, rfl, rfl, rfl, rfl, rfl, rfl, rfl⟩

/-- A concrete windy record with self-reported confidence 0.90. -/
def windySample : WeatherData :=
  { temperature := some 18, windSpeed := some 30, windDirection := none,
    precipitation := 1, humidity := some 60, pressure := none, cloudCover := none,
    visibility := none, provider := .windy, confidence := 0.90 }

/-- Witness for `mergeWeatherData_primary_priority`: fusing a windy
entry listed before a meteoblue entry still selects a
maximal-priority primary. -/
theorem mergeWeatherData_primary_priority_witness :
    ∃ r : FusedRecord,
      mergeWeatherData [{ provider := .windy, data := windySample, cached := false },
                        { provider := .meteoblue, data := mbSample, cached := true }] = some r
      ∧ (∀ e ∈ [({ provider := .windy, data := windySample, cached := false } : SourceEntry),
                { provider := .meteoblue, data := mbSample, cached := true }],
            priority e.provider ≤ priority r.primary) := by
  obtain ⟨r, hr, _, hmax, _⟩ := mergeWeatherData_primary_priority
    [{ provider := .windy, data := windySample, cached := false },
     { provider := .meteoblue, data := mbSample, cached := true }]
    (by simp) (by decide)
  exact ⟨r, hr, hmax⟩

/-- `sources.map(s => s.data.temperature).filter(t => t !== null)`
(`index.js` line 303). -/
def tempsOf (sources : List SourceEntry) : List ℚ :=
  (sources.map (fun s => s.data.temperature)).filterMap id

/-- `sources.map(s => s.data.windSpeed).filter(w => w !== null)`
(`index.js` line 304). -/
def windsOf (sources : List SourceEntry) : List ℚ :=
  (sources.map (fun s => s.data.windSpeed)).filterMap id

/-- The warnings produced from a list of at least two sources: the
temperature check and then the wind check, each firing only when at
least two non-null values exist and their spread exceeds the
threshold. -/
lemma detectWeatherInconsistencies_eq (l : List SourceEntry) (h : 2 ≤ l.length) :
    detectWeatherInconsistencies l =
      (if 2 ≤ (tempsOf l).length ∧ listMax (tempsOf l) - listMin (tempsOf l) > 5 then
        [Warning.tempVariation (listMax (tempsOf l) - listMin (tempsOf l))] else [])
      ++ (if 2 ≤ (windsOf l).length ∧ listMax (windsOf l) - listMin (windsOf l) > 15 then
        [Warning.windVariation (listMax (windsOf l) - listMin (windsOf l))] else []) := by
  simp only [detectWeatherInconsistencies]
  rw [if_neg (by omega)]
  rfl

/-- C8: whenever at least two sources carry non-null temperatures,
fusion succeeds and (a) a temperature spread strictly above 5 °C puts
a temperature-discrepancy warning naming that spread in the fused
record; (b) a temperature spread of at most 5 °C together with a wind
spread of at most 15 km/h (or fewer than two non-null wind values)
yields no warning at all; and (c) the fused base values are the
primary entry's own fields regardless, so warnings never change the
chosen primary values. -/
theorem fusion_discrepancy_warnings (sources : List SourceEntry)
    (htemps : 2 ≤ (tempsOf sources).length) :
    ∃ r : FusedRecord, mergeWeatherData sources = some r
      ∧ (listMax (tempsOf sources) - listMin (tempsOf sources) > 5 →
          Warning.tempVariation (listMax (tempsOf sources) - listMin (tempsOf sources))
            ∈ r.warnings)
      ∧ (listMax (tempsOf sources) - listMin (tempsOf sources) ≤ 5 →
          ((windsOf sources).length < 2
            ∨ listMax (windsOf sources) - listMin (windsOf sources) ≤ 15) →
          r.warnings = [])
      ∧ (∃ e ∈ sources, e.provider = r.primary
          ∧ r.temperature = e.data.temperature ∧ r.windSpeed = e.data.windSpeed) := by
  have hlen2 : 2 ≤ sources.length := by
    calc 2 ≤ (tempsOf sources).length := htemps
    _ ≤ (sources.map (fun s => s.data.temperature)).length := List.length_filterMap_le _ _
    _ = sources.length := List.length_map _ _
  have hne : sources ≠ [] := by
    intro h
    rw [h] at hlen2
    simp at hlen2
  cases hs : sortByPriority sources with
  | nil => exact absurd (sortByPriority_eq_nil.mp hs) hne
  | cons x rest =>
      have hperm : (x :: rest).Perm sources := by
        rw [← hs]; exact sortByPriority_perm sources
      have hpermT : (tempsOf (x :: rest)).Perm (tempsOf sources) :=
        List.Perm.filterMap id (hperm.map (fun s => s.data.temperature))
      have hpermW : (windsOf (x :: rest)).Perm (windsOf sources) :=
        List.Perm.filterMap id (hperm.map (fun s => s.data.windSpeed))
      have hmaxT : listMax (tempsOf (x :: rest)) = listMax (tempsOf sources) :=
        listMax_perm hpermT
      have hminT : listMin (tempsOf (x :: rest)) = listMin (tempsOf sources) :=
        listMin_perm hpermT
      have hmaxW : listMax (windsOf (x :: rest)) = listMax (windsOf sources) :=
        listMax_perm hpermW
      have hminW : listMin (windsOf (x :: rest)) = listMin (windsOf sources) :=
        listMin_perm hpermW
      have hlenT : (tempsOf (x :: rest)).length = (tempsOf sources).length :=
        hpermT.length_eq
      have hlenW : (windsOf (x :: rest)).length = (windsOf sources).length :=
        hpermW.length_eq
      have hsl : (x :: rest).length = sources.length := hperm.length_eq
      have hlen2s : 2 ≤ (x :: rest).length := by omega
      have hgt1 : (x :: rest).length > 1 := by omega
      have hmw : mergeWeatherData sources = some
          { temperature := x.data.temperature, windSpeed := x.data.windSpeed,
            windDirection := x.data.windDirection, precipitation := x.data.precipitation,
            humidity := x.data.humidity, pressure := x.data.pressure,
            cloudCover := x.data.cloudCover, visibility := x.data.visibility,
            sources := List.map (fun s => s.provider) (x :: rest), primary := x.provider,
            confidence := x.data.confidence,
            warnings := if (x :: rest).length > 1 then
              detectWeatherInconsistencies (x :: rest) else [] } := by
        simp only [mergeWeatherData, hs]
      refine ⟨_, hmw, ?_, ?_,
        ⟨x, hperm.subset (List.mem_cons_self x rest), rfl, rfl, rfl⟩⟩
      · intro hspread
        show Warning.tempVariation (listMax (tempsOf sources) - listMin (tempsOf sources))
          ∈ (if (x :: rest).length > 1 then detectWeatherInconsistencies (x :: rest) else [])
        rw [if_pos hgt1, detectWeatherInconsistencies_eq (x :: rest) hlen2s]
        have hcond : 2 ≤ (tempsOf (x :: rest)).length
            ∧ listMax (tempsOf (x :: rest)) - listMin (tempsOf (x :: rest)) > 5 := by
          constructor
          · rw [hlenT]; exact htemps
          · rw [hmaxT, hminT]; exact hspread
        rw [if_pos hcond, hmaxT, hminT]
        exact List.mem_append_left _ (List.mem_singleton_self _)
      · intro hsp hw
        show (if (x :: rest).length > 1 then detectWeatherInconsistencies (x :: rest) else [])
          = []
        rw [if_pos hgt1, detectWeatherInconsistencies_eq (x :: rest) hlen2s]
        rw [if_neg ?negT, if_neg ?negW]
        · rfl
        case negT =>
          rintro ⟨-, h5⟩
          rw [hmaxT, hminT] at h5
          exact absurd h5 (not_lt.mpr hsp)
        case negW =>
          rintro ⟨h2, h15⟩
          rcases hw with hlt | hle
          · rw [hlenW] at h2; omega
          · rw [hmaxW, hminW] at h15
            exact absurd h15 (not_lt.mpr hle)

/-- An AEMET record reporting 10 °C and 12 km/h. -/
def aemetSample : WeatherData :=
  { temperature := some 10, windSpeed := some 12, windDirection := none,
    precipitation := 0, humidity := none, pressure := none, cloudCover := none,
    visibility := none, provider := .aemet, confidence := 0.80 }

/-- A windy record reporting 17 °C and 14 km/h. -/
def windySample17 : WeatherData :=
  { temperature := some 17, windSpeed := some 14, windDirection := none,
    precipitation := 0, humidity := none, pressure := none, cloudCover := none,
    visibility := none, provider := .windy, confidence := 0.90 }

/-- Witness for `fusion_discrepancy_warnings`: two sources 7 °C apart
produce a fused record carrying a temperature-discrepancy warning of
magnitude 7. -/
theorem fusion_discrepancy_warnings_witness :
    ∃ r : FusedRecord,
      mergeWeatherData [{ provider := .aemet, data := aemetSample, cached := false },
                        { provider := .windy, data := windySample17, cached := false }] = some r
      ∧ Warning.tempVariation 7 ∈ r.warnings := by
  obtain ⟨r, hr, hwarn, -, -⟩ := fusion_discrepancy_warnings
    [{ provider := .aemet, data := aemetSample, cached := false },
     { provider := .windy, data := windySample17, cached := false }]
    (by simp [tempsOf, aemetSample, windySample17])
  have h7 : listMax (tempsOf
        [{ provider := .aemet, data := aemetSample, cached := false },
         { provider := .windy, data := windySample17, cached := false }])
      - listMin (tempsOf
        [{ provider := .aemet, data := aemetSample, cached := false },
         { provider := .windy, data := windySample17, cached := false }]) = 7 := by
    norm_num [tempsOf, aemetSample, windySample17, listMax, listMin]
  refine ⟨r, hr, ?_⟩
  have := hwarn (by rw [h7]; norm_num)
  rw [h7] at this
  exact this

/-- The provider loop skips every unavailable provider without
touching the state or gathering anything. -/
lemma acquireLoop_unavailable (env : AcqEnv) (h : ∀ p, env.available p = false)
    (lat lon tms now : ℚ) :
    ∀ (l : List Provider) (acc : AcqState × List SourceEntry),
      acquireLoop env lat lon tms now l acc = acc := by
  intro l
  induction l with
  | nil => intro acc; rfl
  | cons p ps ih =>
      intro acc
      simp only [acquireLoop, acquireStep, h p]
      exact ih acc

/-- A point whose every provider is unavailable acquires nothing and
fails with `NoWeatherData`, leaving the shared state untouched. -/
lemma getWeatherForPointS_unavailable (env : AcqEnv) (h : ∀ p, env.available p = false)
    (lat lon tms now : ℚ) (st : AcqState) :
    getWeatherForPointS env lat lon tms now st = (.error noWeatherDataMsg, st) := by
  simp only [getWeatherForPointS, acquireLoop_unavailable env h]
  rfl

/-- Splitting a route around a waypoint whose providers are all
unavailable: that waypoint contributes exactly the null-weather entry
with the `NoWeatherData` message and passes the state through
unchanged, so every other waypoint's entry is what it would have been
without the failing waypoint. -/
lemma getWeatherForWaypoints_split (now : ℚ) (pre suf : List (Waypoint × AcqEnv))
    (wp : Waypoint) (env : AcqEnv) (st : AcqState)
    (h : ∀ p, env.available p = false) :
    getWeatherForWaypoints now (pre ++ (wp, env) :: suf) st =
      ((getWeatherForWaypoints now pre st).1
         ++ { waypoint := wp, weather := none, error := some noWeatherDataMsg,
              timestamp := now + wp.estimatedTimeFromStart * 60000 }
           :: (getWeatherForWaypoints now suf (getWeatherForWaypoints now pre st).2).1,
       (getWeatherForWaypoints now suf (getWeatherForWaypoints now pre st).2).2) := by
  induction pre generalizing st with
  | nil =>
      simp only [List.nil_append, getWeatherForWaypoints]
      rw [getWeatherForPointS_unavailable env h]
  | cons we pre ih =>
      obtain ⟨w1, e1⟩ := we
      simp only [List.cons_append, getWeatherForWaypoints, List.append_eq]
      rw [ih]

/-- A non-empty source list always merges to a record (the
`sortedSources[0]` access cannot fail). -/
lemma mergeWeatherData_isSome (l : List SourceEntry) (h : l ≠ []) :
    ∃ r, mergeWeatherData l = some r := by
  cases hs : sortByPriority l with
  | nil => exact absurd (sortByPriority_eq_nil.mp hs) h
  | cons x rest =>
      have hmw : mergeWeatherData l = some
          { temperature := x.data.temperature, windSpeed := x.data.windSpeed,
            windDirection := x.data.windDirection, precipitation := x.data.precipitation,
            humidity := x.data.humidity, pressure := x.data.pressure,
            cloudCover := x.data.cloudCover, visibility := x.data.visibility,
            sources := List.map (fun s => s.provider) (x :: rest), primary := x.provider,
            confidence := x.data.confidence,
            warnings := if (x :: rest).length > 1 then
              detectWeatherInconsistencies (x :: rest) else [] } := by
        simp only [mergeWeatherData, hs]
      exact ⟨_, hmw⟩

/-- A point acquisition whose provider walk gathered zero usable
records — providers unconfigured, rate-limited, or their adapters
failing, in any mix — fails with `NoWeatherData` and returns the
walk's final state. -/
lemma getWeatherForPointS_noSources (env : AcqEnv) (lat lon tms now : ℚ) (st : AcqState)
    (h : (acquireLoop env lat lon tms now providerPriority (st, [])).2 = []) :
    getWeatherForPointS env lat lon tms now st
      = (.error noWeatherDataMsg,
         (acquireLoop env lat lon tms now providerPriority (st, [])).1) := by
  simp only [getWeatherForPointS, h, List.length_nil]
  rfl

/-- The acquisition fails with `NoWeatherData` exactly when zero
providers produced a usable record: with at least one gathered
record, the merge always succeeds and the point is answered. -/
lemma getWeatherForPointS_error_iff (env : AcqEnv) (lat lon tms now : ℚ) (st : AcqState) :
    (getWeatherForPointS env lat lon tms now st).1 = .error noWeatherDataMsg
      ↔ (acquireLoop env lat lon tms now providerPriority (st, [])).2 = [] := by
  constructor
  · intro h
    by_cases hnil : (acquireLoop env lat lon tms now providerPriority (st, [])).2 = []
    · exact hnil
    · obtain ⟨r, hr⟩ := mergeWeatherData_isSome
        (acquireLoop env lat lon tms now providerPriority (st, [])).2 hnil
      simp [getWeatherForPointS, hr, hnil] at h
  · intro h
    rw [getWeatherForPointS_noSources env lat lon tms now st h]

/-- Splitting a route around a waypoint whose provider walk gathers
zero usable records: that waypoint contributes exactly the
null-weather entry with the `NoWeatherData` message, the prefix
entries are untouched, and the route continues over the suffix from
the walk's final state instead of aborting. -/
lemma getWeatherForWaypoints_split_noSources (now : ℚ) (suf : List (Waypoint × AcqEnv))
    (wp : Waypoint) (env : AcqEnv) :
    ∀ (pre : List (Waypoint × AcqEnv)) (st : AcqState),
      (acquireLoop env wp.lat wp.lon (now + wp.estimatedTimeFromStart * 60000) now
          providerPriority ((getWeatherForWaypoints now pre st).2, [])).2 = [] →
      getWeatherForWaypoints now (pre ++ (wp, env) :: suf) st =
        ((getWeatherForWaypoints now pre st).1
           ++ { waypoint := wp, weather := none, error := some noWeatherDataMsg,
                timestamp := now + wp.estimatedTimeFromStart * 60000 }
             :: (getWeatherForWaypoints now suf
                  (acquireLoop env wp.lat wp.lon
                    (now + wp.estimatedTimeFromStart * 60000) now providerPriority
                    ((getWeatherForWaypoints now pre st).2, [])).1).1,
         (getWeatherForWaypoints now suf
           (acquireLoop env wp.lat wp.lon (now + wp.estimatedTimeFromStart * 60000) now
             providerPriority ((getWeatherForWaypoints now pre st).2, [])).1).2) := by
  intro pre
  induction pre with
  | nil =>
      intro st hzero
      simp only [getWeatherForWaypoints] at hzero
      have hpt := getWeatherForPointS_noSources env wp.lat wp.lon
        (now + wp.estimatedTimeFromStart * 60000) now st hzero
      simp only [List.nil_append, getWeatherForWaypoints, hpt]
  | cons we pre ih =>
      obtain ⟨w1, e1⟩ := we
      intro st hzero
      simp only [getWeatherForWaypoints] at hzero
      simp only [List.cons_append, getWeatherForWaypoints, List.append_eq]
      rw [ih _ hzero]

/-- C6: (a) whenever the provider walk for a point gathers zero
usable records — providers unconfigured, all adapters failing, all
rate-limited, in any mix — acquisition fails with the `NoWeatherData`
error, and it fails with that error *only* then; in the special case
that every provider is unavailable the shared state is returned
untouched; (b) in the route response such a waypoint yields exactly a
null-weather entry carrying that error message, the prefix entries
are untouched and the suffix is processed normally from the walk's
resulting state instead of the route aborting — in the
all-unavailable case the state passes through unchanged, so every
other waypoint's entry is exactly what it would have been without the
failing waypoint; (c) the route request as a whole is rejected with
the 400 `Waypoints requeridos` error precisely when the waypoint list
is missing, not an array, or empty. -/
theorem route_noWeatherData_isolation :
    (∀ (env : AcqEnv) (lat lon tms now : ℚ) (st : AcqState),
        (acquireLoop env lat lon tms now providerPriority (st, [])).2 = [] →
        getWeatherForPointS env lat lon tms now st
          = (.error noWeatherDataMsg,
             (acquireLoop env lat lon tms now providerPriority (st, [])).1))
    ∧ (∀ (env : AcqEnv) (lat lon tms now : ℚ) (st : AcqState),
        ((getWeatherForPointS env lat lon tms now st).1 = .error noWeatherDataMsg
          ↔ (acquireLoop env lat lon tms now providerPriority (st, [])).2 = []))
    ∧ (∀ (env : AcqEnv) (lat lon tms now : ℚ) (st : AcqState),
        (∀ p, env.available p = false) →
        getWeatherForPointS env lat lon tms now st = (.error noWeatherDataMsg, st))
    ∧ (∀ (now : ℚ) (pre suf : List (Waypoint × AcqEnv)) (wp : Waypoint) (env : AcqEnv)
          (st : AcqState),
        (acquireLoop env wp.lat wp.lon (now + wp.estimatedTimeFromStart * 60000) now
            providerPriority ((getWeatherForWaypoints now pre st).2, [])).2 = [] →
        getWeatherForWaypoints now (pre ++ (wp, env) :: suf) st =
          ((getWeatherForWaypoints now pre st).1
             ++ { waypoint := wp, weather := none, error := some noWeatherDataMsg,
                  timestamp := now + wp.estimatedTimeFromStart * 60000 }
               :: (getWeatherForWaypoints now suf
                    (acquireLoop env wp.lat wp.lon
                      (now + wp.estimatedTimeFromStart * 60000) now providerPriority
                      ((getWeatherForWaypoints now pre st).2, [])).1).1,
           (getWeatherForWaypoints now suf
             (acquireLoop env wp.lat wp.lon (now + wp.estimatedTimeFromStart * 60000) now
               providerPriority ((getWeatherForWaypoints now pre st).2, [])).1).2))
    ∧ (∀ (now : ℚ) (pre suf : List (Waypoint × AcqEnv)) (wp : Waypoint) (env : AcqEnv)
          (st : AcqState), (∀ p, env.available p = false) →
        getWeatherForWaypoints now (pre ++ (wp, env) :: suf) st =
          ((getWeatherForWaypoints now pre st).1
             ++ { waypoint := wp, weather := none, error := some noWeatherDataMsg,
                  timestamp := now + wp.estimatedTimeFromStart * 60000 }
               :: (getWeatherForWaypoints now suf (getWeatherForWaypoints now pre st).2).1,
           (getWeatherForWaypoints now suf (getWeatherForWaypoints now pre st).2).2))
    ∧ (∀ (body : Option (List (Waypoint × AcqEnv))) (now : ℚ) (st : AcqState),
        (∃ e, weatherForRoute body now st = .badRequest e)
          ↔ (body = none ∨ body = some [])) := by
  refine ⟨fun env lat lon tms now st h =>
      getWeatherForPointS_noSources env lat lon tms now st h,
    fun env lat lon tms now st =>
      getWeatherForPointS_error_iff env lat lon tms now st,
    fun env lat lon tms now st h =>
      getWeatherForPointS_unavailable env h lat lon tms now st,
    fun now pre suf wp env st h =>
      getWeatherForWaypoints_split_noSources now suf wp env pre st h,
    fun now pre suf wp env st h =>
      getWeatherForWaypoints_split now pre suf wp env st h, ?_⟩
  intro body now st
  cases body with
  | none => simp [weatherForRoute]
  | some wps =>
      cases wps with
      | nil => simp [weatherForRoute]
      | cons w ws => simp [weatherForRoute]

/-- A world where every provider is configured but every upstream
call fails (for example with a timeout). -/
def failEnv : AcqEnv :=
  { available := fun _ => true, adapter := fun _ => .failure "timeout" }

/-- Witness for `route_noWeatherData_isolation`: with every provider
configured but every adapter call failing, the walk gathers zero
usable records and the point acquisition fails with the
`NoWeatherData` message, returning the walk's final state (which here
records the failed attempts). -/
theorem route_noWeatherData_isolation_witness :
    getWeatherForPointS failEnv 0 0 0 0 initialState
      = (.error noWeatherDataMsg,
         (acquireLoop failEnv 0 0 0 0 providerPriority (initialState, [])).1) :=
  route_noWeatherData_isolation.1 failEnv 0 0 0 0 initialState rfl

/-- `setex` never changes the availability flag. -/
lemma cacheSetex_avail (s : RedisStore) (k : CacheKey) (ttl : ℚ) (d : WeatherData) (t : ℚ) :
    (cacheSetex s k ttl d t).avail = s.avail := by
  simp only [cacheSetex]
  split <;> rfl

/-- `setex` leaves every other key untouched. -/
lemma cacheSetex_cache_ne (s : RedisStore) (k k2 : CacheKey) (ttl : ℚ) (d : WeatherData)
    (t : ℚ) (h : k ≠ k2) :
    (cacheSetex s k2 ttl d t).cache k = s.cache k := by
  simp only [cacheSetex]
  split
  · simp [h]
  · rfl

/-- `get` only looks at the availability flag and the addressed
entry. -/
lemma cacheGet_congr (s1 s2 : RedisStore) (k : CacheKey) (t : ℚ)
    (ha : s1.avail = s2.avail) (hc : s1.cache k = s2.cache k) :
    cacheGet s1 k t = cacheGet s2 k t := by
  simp only [cacheGet, ha, hc]

/-- One loop iteration for a *different* provider `q` preserves the
availability flag, every cache entry keyed to `p`, provider `p`'s
rate-limit key, and the log of `p`'s upstream calls. -/
lemma acquireStep_other (env : AcqEnv) (lat lon tms now : ℚ)
    (acc : AcqState × List SourceEntry) (q p : Provider) (hqp : q ≠ p) :
    ((acquireStep env lat lon tms now acc q).1.store.avail = acc.1.store.avail)
    ∧ (∀ k : CacheKey, k.provider = p →
        (acquireStep env lat lon tms now acc q).1.store.cache k = acc.1.store.cache k)
    ∧ ((acquireStep env lat lon tms now acc q).1.limiter p = acc.1.limiter p)
    ∧ ((acquireStep env lat lon tms now acc q).1.calls.filter (fun c => decide (c.1 = p))
        = acc.1.calls.filter (fun c => decide (c.1 = p))) := by
  obtain ⟨st, sources⟩ := acc
  simp only [acquireStep]
  by_cases hav : env.available q = true
  · simp only [hav, if_true]
    cases hget : cacheGet st.store (cacheKey q lat lon tms) now with
    | some d => simp
    | none =>
        simp only
        by_cases hrl : (checkRateLimit st.store.avail (limits q) (now / 1000)
            (st.limiter q)).1 = true
        · simp only [hrl, if_true]
          cases had : env.adapter q with
          | success d =>
              refine ⟨cacheSetex_avail _ _ _ _ _, ?_, ?_, ?_⟩
              · intro k hk
                refine cacheSetex_cache_ne _ _ _ _ _ _ ?_
                intro hkk
                rw [hkk] at hk
                exact hqp (hk ▸ rfl)
              · simp [hqp.symm]
              · simp only [List.filter_append]
                have : List.filter (fun c => decide (c.1 = p)) [(q, cacheKey q lat lon tms)]
                    = [] := by
                  simp [List.filter, hqp]
                rw [this, List.append_nil]
          | failure m =>
              refine ⟨rfl, fun k _ => rfl, ?_, ?_⟩
              · simp [hqp.symm]
              · simp only [List.filter_append]
                have : List.filter (fun c => decide (c.1 = p)) [(q, cacheKey q lat lon tms)]
                    = [] := by
                  simp [List.filter, hqp]
                rw [this, List.append_nil]
        · simp only [Bool.not_eq_true] at hrl
          simp only [hrl, Bool.false_eq_true, if_false]
          simp [Ne.symm hqp]
  · simp only [Bool.not_eq_true] at hav
    simp only [hav, Bool.false_eq_true, if_false]
    simp

/-- Looping over providers that do not include `p` preserves the
availability flag, the `p`-keyed cache entries, `p`'s rate-limit key
and the log of `p`'s upstream calls. -/
lemma acquireLoop_other (env : AcqEnv) (lat lon tms now : ℚ) (p : Provider) :
    ∀ (l : List Provider), p ∉ l → ∀ (acc : AcqState × List SourceEntry),
      ((acquireLoop env lat lon tms now l acc).1.store.avail = acc.1.store.avail)
      ∧ (∀ k : CacheKey, k.provider = p →
          (acquireLoop env lat lon tms now l acc).1.store.cache k = acc.1.store.cache k)
      ∧ ((acquireLoop env lat lon tms now l acc).1.limiter p = acc.1.limiter p)
      ∧ ((acquireLoop env lat lon tms now l acc).1.calls.filter (fun c => decide (c.1 = p))
          = acc.1.calls.filter (fun c => decide (c.1 = p))) := by
  intro l
  induction l with
  | nil => intro _ acc; exact ⟨rfl, fun _ _ => rfl, rfl, rfl⟩
  | cons q qs ih =>
      intro hp acc
      have hqp : q ≠ p := fun h => hp (h ▸ List.mem_cons_self q qs)
      have hps : p ∉ qs := fun h => hp (List.mem_cons_of_mem q h)
      obtain ⟨ha1, hc1, hl1, hf1⟩ := acquireStep_other env lat lon tms now acc q p hqp
      obtain ⟨ha2, hc2, hl2, hf2⟩ := ih hps (acquireStep env lat lon tms now acc q)
      refine ⟨ha2.trans ha1, ?_, hl2.trans hl1, hf2.trans hf1⟩
      intro k hk
      exact (hc2 k hk).trans (hc1 k hk)

/-- A cache hit for provider `p` gathers the cached record and leaves
the state untouched. -/
lemma acquireStep_hit (env : AcqEnv) (lat lon tms now : ℚ)
    (acc : AcqState × List SourceEntry) (p : Provider) (d : WeatherData)
    (hav : env.available p = true)
    (hget : cacheGet acc.1.store (cacheKey p lat lon tms) now = some d) :
    acquireStep env lat lon tms now acc p
      = (acc.1, acc.2 ++ [{ provider := p, data := d, cached := true }]) := by
  obtain ⟨st, sources⟩ := acc
  simp only [acquireStep, hav, if_true]
  rw [hget]

/-- A cache miss with an allowed rate-limit check and a successful
upstream call logs exactly one upstream call for `p`, stores the
record under the very key that was looked up, with expiry 1800
seconds ahead, and gathers the fresh record. -/
lemma acquireStep_fetch (env : AcqEnv) (lat lon tms now : ℚ)
    (acc : AcqState × List SourceEntry) (p : Provider) (d : WeatherData)
    (hav : env.available p = true)
    (hget : cacheGet acc.1.store (cacheKey p lat lon tms) now = none)
    (hrl : (checkRateLimit acc.1.store.avail (limits p) (now / 1000) (acc.1.limiter p)).1
      = true)
    (had : env.adapter p = .success d) :
    ((acquireStep env lat lon tms now acc p).1.store.avail = acc.1.store.avail)
    ∧ (acc.1.store.avail = true →
        (acquireStep env lat lon tms now acc p).1.store.cache (cacheKey p lat lon tms)
          = some (d, now + 1800 * 1000))
    ∧ ((acquireStep env lat lon tms now acc p).2
        = acc.2 ++ [{ provider := p, data := d, cached := false }]) := by
  obtain ⟨st, sources⟩ := acc
  simp only [acquireStep, hav, if_true]
  rw [hget]
  simp only [hrl, if_true, had]
  refine ⟨cacheSetex_avail _ _ _ _ _, ?_, trivial⟩
  intro havx
  simp [cacheSetex, havx]

/-- The provider walk distributes over list concatenation. -/
lemma acquireLoop_append (env : AcqEnv) (lat lon tms now : ℚ) :
    ∀ (l1 l2 : List Provider) (acc : AcqState × List SourceEntry),
      acquireLoop env lat lon tms now (l1 ++ l2) acc
        = acquireLoop env lat lon tms now l2 (acquireLoop env lat lon tms now l1 acc) := by
  intro l1
  induction l1 with
  | nil => intro l2 acc; rfl
  | cons q qs ih => intro l2 acc; exact ih l2 _

/-- One loop iteration only ever appends to the gathered sources. -/
lemma acquireStep_sources (env : AcqEnv) (lat lon tms now : ℚ)
    (acc : AcqState × List SourceEntry) (q : Provider) :
    ∃ ext, (acquireStep env lat lon tms now acc q).2 = acc.2 ++ ext := by
  obtain ⟨st, sources⟩ := acc
  simp only [acquireStep]
  by_cases hav : env.available q = true
  · simp only [hav, if_true]
    cases hget : cacheGet st.store (cacheKey q lat lon tms) now with
    | some d => exact ⟨_, rfl⟩
    | none =>
        simp only
        by_cases hrl : (checkRateLimit st.store.avail (limits q) (now / 1000)
            (st.limiter q)).1 = true
        · simp only [hrl, if_true]
          cases env.adapter q with
          | success d => exact ⟨_, rfl⟩
          | failure m => exact ⟨[], (List.append_nil _).symm⟩
        · simp only [Bool.not_eq_true] at hrl
          simp only [hrl, Bool.false_eq_true, if_false]
          exact ⟨[], (List.append_nil _).symm⟩
  · simp only [Bool.not_eq_true] at hav
    simp only [hav, Bool.false_eq_true, if_false]
    exact ⟨[], (List.append_nil _).symm⟩

/-- The provider walk only ever appends to the gathered sources. -/
lemma acquireLoop_sources (env : AcqEnv) (lat lon tms now : ℚ) :
    ∀ (l : List Provider) (acc : AcqState × List SourceEntry),
      ∃ ext, (acquireLoop env lat lon tms now l acc).2 = acc.2 ++ ext := by
  intro l
  induction l with
  | nil => intro acc; exact ⟨[], (List.append_nil _).symm⟩
  | cons q qs ih =>
      intro acc
      obtain ⟨e1, he1⟩ := acquireStep_sources env lat lon tms now acc q
      obtain ⟨e2, he2⟩ := ih (acquireStep env lat lon tms now acc q)
      refine ⟨e1 ++ e2, ?_⟩
      simp only [acquireLoop]
      rw [he2, he1, List.append_assoc]

/-- Every provider occurs exactly once in the fixed priority order. -/
lemma providerPriority_split (p : Provider) :
    ∃ l1 l2, providerPriority = l1 ++ p :: l2 ∧ p ∉ l1 ∧ p ∉ l2 := by
  cases p with
  | meteoblue => exact ⟨[], [.aemet, .windy, .meteored], rfl, by decide, by decide⟩
  | aemet => exact ⟨[.meteoblue], [.windy, .meteored], rfl, by decide, by decide⟩
  | windy => exact ⟨[.meteoblue, .aemet], [.meteored], rfl, by decide, by decide⟩
  | meteored => exact ⟨[.meteoblue, .aemet, .windy], [], rfl, by decide, by decide⟩

/-- The state returned by a point acquisition is the state after the
provider walk, whether the point succeeded or failed. -/
lemma getWeatherForPointS_state (env : AcqEnv) (lat lon tms now : ℚ) (st : AcqState) :
    (getWeatherForPointS env lat lon tms now st).2
      = (acquireLoop env lat lon tms now providerPriority (st, [])).1 := by
  simp only [getWeatherForPointS]
  split
  · rfl
  · split <;> rfl

/-- C7: after a successful fresh fetch by provider `p` for a point
and hour bucket (a cache miss, an allowed rate-limit check, a
successful adapter call), the record is stored under exactly the key
that was looked up, with its expiry 1800 seconds ahead; a second
acquisition whose key rounds identically (same provider, same
thousandth-degree coordinates, same hour bucket), within those 30
minutes and with the store up, gathers that record from the cache
(`cached := true`) and issues no further upstream call for `p` — the
upstream-call log for `p` is unchanged. -/
theorem cache_idempotence
    (env1 env2 : AcqEnv) (st0 : AcqState) (p : Provider)
    (lat lon tms lat2 lon2 tms2 now1 now2 : ℚ) (d : WeatherData)
    (havail : st0.store.avail = true)
    (hp1 : env1.available p = true)
    (hmiss : cacheGet st0.store (cacheKey p lat lon tms) now1 = none)
    (hallowed : (checkRateLimit true (limits p) (now1 / 1000) (st0.limiter p)).1 = true)
    (hfetch : env1.adapter p = .success d)
    (hkey : cacheKey p lat2 lon2 tms2 = cacheKey p lat lon tms)
    (hp2 : env2.available p = true)
    (hfresh : now2 < now1 + 1800 * 1000) :
    ((getWeatherForPointS env1 lat lon tms now1 st0).2.store.cache (cacheKey p lat lon tms)
        = some (d, now1 + 1800 * 1000))
    ∧ ({ provider := p, data := d, cached := true } ∈
        (acquireLoop env2 lat2 lon2 tms2 now2 providerPriority
          ((getWeatherForPointS env1 lat lon tms now1 st0).2, [])).2)
    ∧ ((acquireLoop env2 lat2 lon2 tms2 now2 providerPriority
          ((getWeatherForPointS env1 lat lon tms now1 st0).2, [])).1.calls.filter
            (fun c => decide (c.1 = p))
        = (getWeatherForPointS env1 lat lon tms now1 st0).2.calls.filter
            (fun c => decide (c.1 = p))) := by
  obtain ⟨l1, l2, hsplit, hn1, hn2⟩ := providerPriority_split p
  rw [getWeatherForPointS_state env1 lat lon tms now1 st0, hsplit]
  rw [acquireLoop_append, acquireLoop_append]
  simp only [acquireLoop]
  -- Run 1: the prefix providers touch nothing of p's.
  obtain ⟨ha1, hc1, hl1, hf1⟩ := acquireLoop_other env1 lat lon tms now1 p l1 hn1 (st0, [])
  have havA : (acquireLoop env1 lat lon tms now1 l1 (st0, [])).1.store.avail = true :=
    ha1.trans havail
  have hgetA : cacheGet (acquireLoop env1 lat lon tms now1 l1 (st0, [])).1.store
      (cacheKey p lat lon tms) now1 = none := by
    rw [cacheGet_congr _ st0.store _ now1 (ha1.trans rfl) (hc1 _ rfl)]
    exact hmiss
  have hrlA : (checkRateLimit
      (acquireLoop env1 lat lon tms now1 l1 (st0, [])).1.store.avail (limits p)
      (now1 / 1000) ((acquireLoop env1 lat lon tms now1 l1 (st0, [])).1.limiter p)).1
      = true := by
    rw [havA, hl1]
    exact hallowed
  obtain ⟨hsa, hsc, hss⟩ := acquireStep_fetch env1 lat lon tms now1
    (acquireLoop env1 lat lon tms now1 l1 (st0, [])) p d hp1 hgetA hrlA hfetch
  have hBavail : (acquireStep env1 lat lon tms now1
      (acquireLoop env1 lat lon tms now1 l1 (st0, [])) p).1.store.avail = true :=
    hsa.trans havA
  have hBcache : (acquireStep env1 lat lon tms now1
      (acquireLoop env1 lat lon tms now1 l1 (st0, [])) p).1.store.cache
      (cacheKey p lat lon tms) = some (d, now1 + 1800 * 1000) := hsc havA
  -- Run 1: the suffix providers touch nothing of p's either.
  obtain ⟨ha2, hc2, hl2b, hf2⟩ := acquireLoop_other env1 lat lon tms now1 p l2 hn2
    (acquireStep env1 lat lon tms now1 (acquireLoop env1 lat lon tms now1 l1 (st0, [])) p)
  have h1avail : (acquireLoop env1 lat lon tms now1 l2 (acquireStep env1 lat lon tms now1
      (acquireLoop env1 lat lon tms now1 l1 (st0, [])) p)).1.store.avail = true :=
    ha2.trans hBavail
  have h1cache : (acquireLoop env1 lat lon tms now1 l2 (acquireStep env1 lat lon tms now1
      (acquireLoop env1 lat lon tms now1 l1 (st0, [])) p)).1.store.cache
      (cacheKey p lat lon tms) = some (d, now1 + 1800 * 1000) :=
    (hc2 _ rfl).trans hBcache
  refine ⟨h1cache, ?_, ?_⟩
  -- Run 2: prefix providers leave p's entry and log alone.
  · obtain ⟨hb1, hb2, hb3, hb4⟩ := acquireLoop_other env2 lat2 lon2 tms2 now2 p l1 hn1
      ((acquireLoop env1 lat lon tms now1 l2 (acquireStep env1 lat lon tms now1
        (acquireLoop env1 lat lon tms now1 l1 (st0, [])) p)).1, [])
    have hget2 : cacheGet (acquireLoop env2 lat2 lon2 tms2 now2 l1
        ((acquireLoop env1 lat lon tms now1 l2 (acquireStep env1 lat lon tms now1
          (acquireLoop env1 lat lon tms now1 l1 (st0, [])) p)).1, [])).1.store
        (cacheKey p lat2 lon2 tms2) now2 = some d := by
      rw [hkey]
      rw [cacheGet_congr _ (acquireLoop env1 lat lon tms now1 l2 (acquireStep env1
        lat lon tms now1 (acquireLoop env1 lat lon tms now1 l1 (st0, [])) p)).1.store
        _ now2 (hb1.trans rfl) (hb2 _ rfl)]
      simp [cacheGet, h1avail, h1cache, hfresh]
    rw [acquireStep_hit env2 lat2 lon2 tms2 now2 _ p d hp2 hget2]
    obtain ⟨ext, hext⟩ := acquireLoop_sources env2 lat2 lon2 tms2 now2 l2 _
    rw [hext]
    simp
  · obtain ⟨hb1, hb2, hb3, hb4⟩ := acquireLoop_other env2 lat2 lon2 tms2 now2 p l1 hn1
      ((acquireLoop env1 lat lon tms now1 l2 (acquireStep env1 lat lon tms now1
        (acquireLoop env1 lat lon tms now1 l1 (st0, [])) p)).1, [])
    have hget2 : cacheGet (acquireLoop env2 lat2 lon2 tms2 now2 l1
        ((acquireLoop env1 lat lon tms now1 l2 (acquireStep env1 lat lon tms now1
          (acquireLoop env1 lat lon tms now1 l1 (st0, [])) p)).1, [])).1.store
        (cacheKey p lat2 lon2 tms2) now2 = some d := by
      rw [hkey]
      rw [cacheGet_congr _ (acquireLoop env1 lat lon tms now1 l2 (acquireStep env1
        lat lon tms now1 (acquireLoop env1 lat lon tms now1 l1 (st0, [])) p)).1.store
        _ now2 (hb1.trans rfl) (hb2 _ rfl)]
      simp [cacheGet, h1avail, h1cache, hfresh]
    rw [acquireStep_hit env2 lat2 lon2 tms2 now2 _ p d hp2 hget2]
    obtain ⟨hc1r, hc2r, hc3r, hc4r⟩ := acquireLoop_other env2 lat2 lon2 tms2 now2 p l2 hn2
      ((acquireLoop env2 lat2 lon2 tms2 now2 l1
        ((acquireLoop env1 lat lon tms now1 l2 (acquireStep env1 lat lon tms now1
          (acquireLoop env1 lat lon tms now1 l1 (st0, [])) p)).1, [])).1, _)
    rw [hc4r, hb4]

/-- A world where every provider is configured and every upstream
call parses to `mbSample`. -/
def fullEnv : AcqEnv :=
  { available := fun _ => true, adapter := fun _ => .success mbSample }

/-- Witness for `cache_idempotence`: a second acquisition right after
a fresh meteoblue fetch for the same point and hour is served the
cached record. -/
theorem cache_idempotence_witness :
    { provider := Provider.meteoblue, data := mbSample, cached := true } ∈
      (acquireLoop fullEnv 0 0 0 0 providerPriority
        ((getWeatherForPointS fullEnv 0 0 0 0 initialState).2, [])).2 :=
  (cache_idempotence fullEnv fullEnv initialState .meteoblue
    0 0 0 0 0 0 0 0 mbSample rfl rfl rfl rfl rfl rfl rfl (by norm_num)).2.1
